import Mathlib

/-!
Verification of the qubes-anaconda-addon kickstart add-on
(`org_qubes_os_initial_setup/ks/qubes.py`) against its specification.

Python strings are modelled as lists of characters (`Str`); the Python
string operations used by the source (`strip`, `split`, `rsplit`,
`replace`, `lower`, `join`, `endswith`, `startswith`) are defined below
with Python's semantics.  The mutable `QubesData` object is modelled as
a record, in-place mutation as explicit state passing, and raised
exceptions as an explicit error component (the record component of a
result is the state of the object at the moment the exception leaves
the method, mirroring Python's in-place mutation).
-/

/-- Python strings, modelled as lists of characters. -/
abbrev Str := List Char

/-- Coerce a Lean string literal to the `Str` model. -/
def str (s : String) : Str := s.data

/-- The characters Python's `str.strip()` / `str.split()` (with no
separator argument) treat as whitespace (the ASCII ones; the source
only ever deals with ASCII configuration text). -/
def isPySpace (c : Char) : Bool :=
  c == ' ' || c == '\t' || c == '\n' || c == '\r' || c == '\x0b' || c == '\x0c'

/-- Python `s.strip()`: remove leading and trailing whitespace. -/
def pyStrip (s : Str) : Str :=
  ((s.dropWhile isPySpace).reverse.dropWhile isPySpace).reverse

/-- Python `s.split(maxsplit=1)` (no separator: split on whitespace runs,
at most one split, leading/trailing whitespace ignored). -/
def pySplitWs1 (s : Str) : List Str :=
  let s1 := s.dropWhile isPySpace
  if s1 = [] then []
  else
    let tok := s1.takeWhile (fun c => !(isPySpace c))
    let rest := (s1.dropWhile (fun c => !(isPySpace c))).dropWhile isPySpace
    if rest = [] then [tok] else [tok, rest]

/-- Python `s.split(sep)` for a one-character separator: unlimited
splits, empty pieces kept (`"".split(sep) == [""]`). -/
def pySplitChar (sep : Char) : Str → List Str
  | [] => [[]]
  | c :: rest =>
    if c = sep then [] :: pySplitChar sep rest
    else
      match pySplitChar sep rest with
      | [] => [[c]]
      | t :: ts => (c :: t) :: ts

/-- Python `s.split(sep, maxsplit)` for a one-character separator. -/
def pySplitCharMax (sep : Char) : Nat → Str → List Str
  | 0, s => [s]
  | Nat.succ n, s =>
    let pre := s.takeWhile (fun c => !(c == sep))
    let post := s.dropWhile (fun c => !(c == sep))
    match post with
    | [] => [pre]
    | _ :: rest => pre :: pySplitCharMax sep n rest

/-- Python `s.rsplit(sep, maxsplit)` for a one-character separator:
at most `maxsplit` splits, taken from the right. -/
def pyJoin (sep : Str) : List Str → Str
  | [] => []
  | [s] => s
  | s :: rest => s ++ sep ++ pyJoin sep rest

/-- Python `s.rsplit(sep, n)`: split on every separator, then re-join
all but the last `n` pieces (equivalent to splitting from the right). -/
def pyRsplitChar (sep : Char) (n : Nat) (s : Str) : List Str :=
  let parts := pySplitChar sep s
  if parts.length ≤ n + 1 then parts
  else pyJoin [sep] (parts.take (parts.length - n)) :: parts.drop (parts.length - n)

/-- Python `s.lower()` (ASCII case folding suffices for the source). -/
def pyLower (s : Str) : Str := s.map Char.toLower

/-- Python `s.rstrip(c)` for a newline, as used on the sysfs dm name. -/
def rstripNl (s : Str) : Str := (s.reverse.dropWhile (fun c => c == '\n')).reverse

/-- Python `str(b)` for a boolean: `"True"` / `"False"`. -/
def pyBoolStr (b : Bool) : Str := if b then str "True" else str "False"

/-- Python `"{}".format(v)` for an optional string: `None` prints as the
literal token `"None"`. -/
def pyFormatOpt : Option Str → Str
  | none => str "None"
  | some s => s

/-- A dictionary with string keys, as an association list; `dictGet` is
Python `d[k]` returning `none` where Python would raise `KeyError`. -/
def dictGet (d : List (Str × Str)) (k : Str) : Option Str :=
  match d with
  | [] => none
  | (k', v) :: rest => if k' = k then some v else dictGet rest k

/-- The `QubesData` addon object (qubes.py lines 100-171).  Fields are
those assigned in `__init__`; the UI-only `thread_dialog` handle is not
representable and not used by any claim. -/
structure QubesData where
  fedora_available : Bool
  debian_available : Bool
  whonix_available : Bool
  templates_aliases : List (Str × Str)
  templates_versions : List (Str × Str)
  usbvm_available : Bool
  system_vms : Bool
  disp_firewallvm_and_usbvm : Bool
  disp_netvm : Bool
  default_vms : Bool
  whonix_vms : Bool
  whonix_default : Bool
  usbvm : Bool
  usbvm_with_netvm : Bool
  custom_pool : Bool
  vg_tpool : Option (Str × Str)
  skip : Bool
  default_template : Option Str
  templates_to_install : List Str
  gui_mode : Bool
  qubes_user : Option Str
  seen : Bool
deriving DecidableEq, Repr

/-- `QubesData.bool_options` (qubes.py lines 105-108). -/
def bool_options : List Str :=
  [str "system_vms", str "disp_firewallvm_and_usbvm", str "disp_netvm",
   str "default_vms", str "whonix_vms", str "whonix_default", str "usbvm",
   str "usbvm_with_netvm", str "skip"]

/-- `QubesData.__init__` (lines 110-171): the probed values (template
availability/versions/aliases, USB-VM availability, default pool) are
inputs; the option fields take the defaults the constructor assigns. -/
def initQubesData (fedora_av debian_av whonix_av usbvm_av : Bool)
    (aliases versions : List (Str × Str)) (tpool : Option (Str × Str)) : QubesData :=
  { fedora_available := fedora_av
    debian_available := debian_av
    whonix_available := whonix_av
    templates_aliases := aliases
    templates_versions := versions
    usbvm_available := usbvm_av
    system_vms := true
    disp_firewallvm_and_usbvm := true
    disp_netvm := false
    default_vms := true
    whonix_vms := whonix_av
    whonix_default := false
    usbvm := usbvm_av
    usbvm_with_netvm := false
    custom_pool := false
    vg_tpool := tpool
    skip := false
    default_template := none
    templates_to_install := [str "fedora", str "debian", str "whonix-gw", str "whonix-ws"]
    gui_mode := false
    qubes_user := none
    seen := false }

/-- `setattr(self, param, bool_value)` for `param` among `bool_options`
(line 246); an unknown key leaves the record unchanged (`handle_line`
only reaches this with a known key). -/
def setBoolOpt (q : QubesData) (param : Str) (b : Bool) : QubesData :=
  if param = str "system_vms" then { q with system_vms := b }
  else if param = str "disp_firewallvm_and_usbvm" then { q with disp_firewallvm_and_usbvm := b }
  else if param = str "disp_netvm" then { q with disp_netvm := b }
  else if param = str "default_vms" then { q with default_vms := b }
  else if param = str "whonix_vms" then { q with whonix_vms := b }
  else if param = str "whonix_default" then { q with whonix_default := b }
  else if param = str "usbvm" then { q with usbvm := b }
  else if param = str "usbvm_with_netvm" then { q with usbvm_with_netvm := b }
  else if param = str "skip" then { q with skip := b }
  else q

/-- `getattr(self, param)` for `param` among `bool_options` (line 265). -/
def getBoolOpt (q : QubesData) (param : Str) : Bool :=
  if param = str "system_vms" then q.system_vms
  else if param = str "disp_firewallvm_and_usbvm" then q.disp_firewallvm_and_usbvm
  else if param = str "disp_netvm" then q.disp_netvm
  else if param = str "default_vms" then q.default_vms
  else if param = str "whonix_vms" then q.whonix_vms
  else if param = str "whonix_default" then q.whonix_default
  else if param = str "usbvm" then q.usbvm
  else if param = str "usbvm_with_netvm" then q.usbvm_with_netvm
  else if param = str "skip" then q.skip
  else false

/-- `QubesData.handle_line` (lines 230-259).  The result pairs the
record state at return/raise time with the `KickstartValueError`
message, if one was raised (`none` on success). -/
def handle_line (q : QubesData) (line : Str) : QubesData × Option Str :=
  match pySplitWs1 (pyStrip line) with
  | [param, value] =>
    if bool_options.contains param then
      if pyLower value = str "true" || pyLower value = str "false" then
        ({ setBoolOpt q param (pyLower value = str "true") with seen := true }, none)
      else
        (q, some (str "invalid value for bool property: " ++ line))
    else if param = str "default_template" then
      ({ q with default_template := some value, seen := true }, none)
    else if param = str "templates_to_install" then
      ({ q with templates_to_install := pySplitChar ' ' value, seen := true }, none)
    else if param = str "lvm_pool" then
      match pySplitChar '/' value with
      | [vg, tp] => ({ q with vg_tpool := some (vg, tp), seen := true }, none)
      | _ => (q, some (str "invalid value for lvm_pool: " ++ line))
    else
      (q, some (str "invalid parameter: " ++ param))
  | _ => (q, some (str "invalid line: " ++ line))

/-- A serialized configuration line `"<key> <value>"`. -/
def mkLine (k v : Str) : Str := k ++ ' ' :: v

/-- The body lines of `QubesData.__str__` (lines 264-272): the nine
boolean-option lines, the `default_template` line, the
`templates_to_install` line, and the `lvm_pool` line when a pool is
set. -/
def serializeBodyLines (q : QubesData) : List Str :=
  bool_options.map (fun k => mkLine k (pyBoolStr (getBoolOpt q k)))
  ++ [mkLine (str "default_template") (pyFormatOpt q.default_template)]
  ++ [mkLine (str "templates_to_install") (pyJoin [' '] q.templates_to_install)]
  ++ (match q.vg_tpool with
      | none => []
      | some (vg, tp) => [mkLine (str "lvm_pool") (vg ++ '/' :: tp)])

/-- `QubesData.__str__` (lines 261-275): the `%addon` header, each body
line terminated by a newline, and the `%end` footer. -/
def serialize (q : QubesData) (name : Str) : Str :=
  str "%addon " ++ name ++ ['\n']
  ++ (serializeBodyLines q).foldr (fun l acc => l ++ '\n' :: acc) []
  ++ str "%end\n"

/-- Feed lines one by one through `handle_line` (as the kickstart parser
does), stopping at the first line that raises. -/
def feedLines (q : QubesData) : List Str → QubesData × Option Str
  | [] => (q, none)
  | l :: ls =>
    match handle_line q l with
    | (q', none) => feedLines q' ls
    | (q', some e) => (q', some e)

/-- Equality of the serializable configuration fields: the nine boolean
options, `default_template`, `templates_to_install` and `vg_tpool`. -/
def ConfigEq (a b : QubesData) : Prop :=
  a.system_vms = b.system_vms ∧
  a.disp_firewallvm_and_usbvm = b.disp_firewallvm_and_usbvm ∧
  a.disp_netvm = b.disp_netvm ∧
  a.default_vms = b.default_vms ∧
  a.whonix_vms = b.whonix_vms ∧
  a.whonix_default = b.whonix_default ∧
  a.usbvm = b.usbvm ∧
  a.usbvm_with_netvm = b.usbvm_with_netvm ∧
  a.skip = b.skip ∧
  a.default_template = b.default_template ∧
  a.templates_to_install = b.templates_to_install ∧
  a.vg_tpool = b.vg_tpool

instance (a b : QubesData) : Decidable (ConfigEq a b) := by
  unfold ConfigEq; infer_instance

/-- A whitespace-free, nonempty piece of configuration text (the shape
of every key and of template/pool names in practice). -/
def IsToken (s : Str) : Prop := s ≠ [] ∧ ∀ c ∈ s, isPySpace c = false

instance (s : Str) : Decidable (IsToken s) := by
  unfold IsToken; infer_instance

theorem dropWhile_length_le (p : Char → Bool) (l : Str) :
    (l.dropWhile p).length ≤ l.length := by
  induction l with
  | nil => simp
  | cons a l ih =>
    rw [List.dropWhile_cons]
    split
    · exact Nat.le_trans ih (Nat.le_succ _)
    · exact Nat.le_refl _

theorem dropWhile_eq_self_head (p : Char → Bool) (a : Char) (l : Str)
    (h : List.dropWhile p (a :: l) = a :: l) : p a = false := by
  by_contra hne
  have ha : p a = true := by revert hne; cases p a <;> simp
  rw [List.dropWhile_cons, if_pos ha] at h
  have := dropWhile_length_le p l
  rw [h] at this
  simp at this

theorem dropWhile_keep_append (p : Char → Bool) (x y : Str)
    (hx : x ≠ []) (h : List.dropWhile p x = x) :
    List.dropWhile p (x ++ y) = x ++ y := by
  cases x with
  | nil => exact absurd rfl hx
  | cons a w =>
    have ha := dropWhile_eq_self_head p a w h
    rw [List.cons_append, List.dropWhile_cons, if_neg (by simp [ha])]

theorem takeWhile_append_all (p : Char → Bool) (k x : Str)
    (h : ∀ c ∈ k, p c = true) :
    List.takeWhile p (k ++ x) = k ++ List.takeWhile p x := by
  induction k with
  | nil => simp
  | cons a w ih =>
    rw [List.cons_append, List.takeWhile_cons, if_pos (h a (by simp)),
      ih (fun c hc => h c (by simp [hc])), List.cons_append]

theorem dropWhile_append_all (p : Char → Bool) (k x : Str)
    (h : ∀ c ∈ k, p c = true) :
    List.dropWhile p (k ++ x) = List.dropWhile p x := by
  induction k with
  | nil => simp
  | cons a w ih =>
    rw [List.cons_append, List.dropWhile_cons, if_pos (h a (by simp))]
    exact ih (fun c hc => h c (by simp [hc]))

theorem dropWhile_all_false (p : Char → Bool) (x : Str)
    (h : ∀ c ∈ x, p c = false) : List.dropWhile p x = x := by
  cases x with
  | nil => rfl
  | cons a w => rw [List.dropWhile_cons, if_neg (by simp [h a (by simp)])]

/-- `strip` leaves a well-formed `"<key> <value>"` line unchanged. -/
theorem pyStrip_mkLine (k v : Str) (hk : IsToken k) (hv : v ≠ [])
    (hvr : v.reverse.dropWhile isPySpace = v.reverse) :
    pyStrip (mkLine k v) = mkLine k v := by
  obtain ⟨hk0, hkc⟩ := hk
  unfold pyStrip mkLine
  rw [dropWhile_keep_append isPySpace k (' ' :: v) hk0
    (dropWhile_all_false isPySpace k hkc)]
  rw [show (k ++ ' ' :: v).reverse = v.reverse ++ (' ' :: k.reverse) by
    rw [List.reverse_append, List.reverse_cons]; simp]
  rw [dropWhile_keep_append isPySpace v.reverse (' ' :: k.reverse)
    (by simpa using hv) hvr]
  rw [List.reverse_append, List.reverse_cons]
  simp

/-- Splitting a well-formed `"<key> <value>"` line recovers key and
value. -/
theorem pySplitWs1_mkLine (k v : Str) (hk : IsToken k) (hv : v ≠ [])
    (hvl : v.dropWhile isPySpace = v) :
    pySplitWs1 (mkLine k v) = [k, v] := by
  obtain ⟨hk0, hkc⟩ := hk
  have h1 : List.dropWhile isPySpace (k ++ ' ' :: v) = k ++ ' ' :: v :=
    dropWhile_keep_append isPySpace k (' ' :: v) hk0
      (dropWhile_all_false isPySpace k hkc)
  have h2 : List.takeWhile (fun c => !(isPySpace c)) (k ++ ' ' :: v) = k := by
    rw [takeWhile_append_all _ k (' ' :: v) (fun c hc => by simp [hkc c hc]),
      List.takeWhile_cons]
    simp [isPySpace]
  have h3 : List.dropWhile isPySpace
      (List.dropWhile (fun c => !(isPySpace c)) (k ++ ' ' :: v)) = v := by
    rw [dropWhile_append_all _ k (' ' :: v) (fun c hc => by simp [hkc c hc]),
      List.dropWhile_cons]
    simp [isPySpace, hvl]
  unfold pySplitWs1 mkLine
  simp only [h1, h2, h3]
  rw [if_neg (by simp), if_neg hv]

theorem pySplitChar_of_not_mem (sep : Char) (s : Str) (h : sep ∉ s) :
    pySplitChar sep s = [s] := by
  induction s with
  | nil => rfl
  | cons c w ih =>
    have hc : ¬ c = sep := fun he => h (by simp [he])
    rw [pySplitChar, if_neg hc, ih (fun hm => h (by simp [hm]))]

theorem pySplitChar_append_sep (sep : Char) (t y : Str) (h : sep ∉ t) :
    pySplitChar sep (t ++ sep :: y) = t :: pySplitChar sep y := by
  induction t with
  | nil => simp [pySplitChar]
  | cons c w ih =>
    have hc : ¬ c = sep := fun he => h (by simp [he])
    rw [List.cons_append, pySplitChar, if_neg hc,
      ih (fun hm => h (by simp [hm]))]

/-- Splitting on a one-character separator undoes joining, as long as no
piece contains the separator and the list is nonempty. -/
theorem pySplitChar_pyJoin (sep : Char) (l : List Str) (hl : l ≠ [])
    (h : ∀ s ∈ l, sep ∉ s) :
    pySplitChar sep (pyJoin [sep] l) = l := by
  induction l with
  | nil => exact absurd rfl hl
  | cons t rest ih =>
    cases rest with
    | nil => exact pySplitChar_of_not_mem sep t (h t (by simp))
    | cons t2 r2 =>
      have : pyJoin [sep] (t :: t2 :: r2) = t ++ sep :: pyJoin [sep] (t2 :: r2) := by
        show (t ++ [sep]) ++ pyJoin [sep] (t2 :: r2) = _
        simp
      rw [this, pySplitChar_append_sep sep _ _ (h t (by simp)),
        ih (by simp) (fun s hs => h s (by simp [hs]))]

theorem pyJoin_cons₂ (sep : Str) (s t : Str) (r : List Str) :
    pyJoin sep (s :: t :: r) = s ++ sep ++ pyJoin sep (t :: r) := rfl

theorem pyJoin_ne_nil (l : List Str) (hl : l ≠ []) (h : ∀ s ∈ l, s ≠ []) :
    pyJoin [' '] l ≠ [] := by
  cases l with
  | nil => exact absurd rfl hl
  | cons t rest =>
    cases rest with
    | nil => exact h t (by simp)
    | cons t2 r2 =>
      rw [pyJoin_cons₂]
      simp [h t (by simp)]

theorem pyJoin_dropWhile (l : List Str) (hl : l ≠ [])
    (htok : ∀ s ∈ l, IsToken s) :
    (pyJoin [' '] l).dropWhile isPySpace = pyJoin [' '] l := by
  cases l with
  | nil => exact absurd rfl hl
  | cons t rest =>
    cases rest with
    | nil => exact dropWhile_all_false isPySpace t (htok t (by simp)).2
    | cons t2 r2 =>
      rw [pyJoin_cons₂, List.append_assoc]
      exact dropWhile_keep_append isPySpace t _ (htok t (by simp)).1
        (dropWhile_all_false isPySpace t (htok t (by simp)).2)

theorem pyJoin_rev_dropWhile (l : List Str) (hl : l ≠ [])
    (htok : ∀ s ∈ l, IsToken s) :
    (pyJoin [' '] l).reverse.dropWhile isPySpace = (pyJoin [' '] l).reverse := by
  induction l with
  | nil => exact absurd rfl hl
  | cons t rest ih =>
    cases rest with
    | nil =>
      exact dropWhile_all_false isPySpace t.reverse
        (fun c hc => (htok t (by simp)).2 c (List.mem_reverse.mp hc))
    | cons t2 r2 =>
      have hJ := pyJoin_ne_nil (t2 :: r2) (by simp)
        (fun s hs => (htok s (by simp [hs])).1)
      rw [pyJoin_cons₂, List.append_assoc,
        show ([' '] ++ pyJoin [' '] (t2 :: r2) : Str)
          = ' ' :: pyJoin [' '] (t2 :: r2) from rfl,
        List.reverse_append, List.reverse_cons, List.append_assoc]
      exact dropWhile_keep_append isPySpace (pyJoin [' '] (t2 :: r2)).reverse _
        (by simpa using hJ) (ih (by simp) (fun s hs => htok s (by simp [hs])))

/-- `handle_line` on a well-formed serialized line: recover key and
value. -/
theorem handle_line_split (k v : Str) (hk : IsToken k)
    (hv : v ≠ []) (hvl : v.dropWhile isPySpace = v)
    (hvr : v.reverse.dropWhile isPySpace = v.reverse) :
    pySplitWs1 (pyStrip (mkLine k v)) = [k, v] := by
  rw [pyStrip_mkLine k v hk hv hvr, pySplitWs1_mkLine k v hk hv hvl]

/-- Parsing a serialized boolean-option line sets that option and the
`seen` flag. -/
theorem handle_line_bool (q : QubesData) (k : Str) (b : Bool)
    (hk : bool_options.contains k = true) :
    handle_line q (mkLine k (pyBoolStr b)) =
      ({ setBoolOpt q k b with seen := true }, none) := by
  have hkm : k ∈ bool_options := List.mem_of_elem_eq_true hk
  have htok : IsToken k := by
    have hall : ∀ s ∈ bool_options, IsToken s := by decide
    exact hall k hkm
  cases b with
  | true =>
    have hs := handle_line_split k (str "True") htok (by decide)
      (by decide) (by decide)
    unfold handle_line
    rw [show pyBoolStr true = str "True" from rfl, hs]
    simp [hk, hkm, show pyLower (str "True") = str "true" from rfl]
  | false =>
    have hs := handle_line_split k (str "False") htok (by decide)
      (by decide) (by decide)
    unfold handle_line
    rw [show pyBoolStr false = str "False" from rfl, hs]
    have hd : (decide (str "false" = str "true")) = false := by decide
    simp [hk, hkm, show pyLower (str "False") = str "false" from rfl, hd]

/-- Parsing a serialized `default_template` line sets the template. -/
theorem handle_line_dt (q : QubesData) (t : Str) (ht : IsToken t) :
    handle_line q (mkLine (str "default_template") t) =
      ({ q with default_template := some t, seen := true }, none) := by
  have hs := handle_line_split (str "default_template") t (by decide)
    ht.1 (dropWhile_all_false isPySpace t ht.2)
    (dropWhile_all_false isPySpace t.reverse
      (fun c hc => ht.2 c (List.mem_reverse.mp hc)))
  unfold handle_line
  rw [hs]
  have hnm : (str "default_template") ∉ bool_options := by decide
  simp [hnm]

/-- Parsing a serialized `templates_to_install` line recovers the
template list. -/
theorem handle_line_ti (q : QubesData) (l : List Str) (hl : l ≠ [])
    (htok : ∀ s ∈ l, IsToken s) :
    handle_line q (mkLine (str "templates_to_install") (pyJoin [' '] l)) =
      ({ q with templates_to_install := l, seen := true }, none) := by
  have hs := handle_line_split (str "templates_to_install")
    (pyJoin [' '] l) (by decide)
    (pyJoin_ne_nil l hl (fun s hs => (htok s hs).1))
    (pyJoin_dropWhile l hl htok) (pyJoin_rev_dropWhile l hl htok)
  have hsplit : pySplitChar ' ' (pyJoin [' '] l) = l :=
    pySplitChar_pyJoin ' ' l hl
      (fun s hs hm => absurd ((htok s hs).2 ' ' hm) (by decide))
  unfold handle_line
  rw [hs]
  have hnm : (str "templates_to_install") ∉ bool_options := by decide
  have hne : str "templates_to_install" ≠ str "default_template" := by decide
  simp [hnm, hne, hsplit]

/-- Parsing a serialized `lvm_pool` line recovers the pool pair. -/
theorem handle_line_pool (q : QubesData) (vg tp : Str)
    (hvg : IsToken vg) (htp : IsToken tp) (h1 : '/' ∉ vg) (h2 : '/' ∉ tp) :
    handle_line q (mkLine (str "lvm_pool") (vg ++ '/' :: tp)) =
      ({ q with vg_tpool := some (vg, tp), seen := true }, none) := by
  have hv0 : (vg ++ '/' :: tp : Str) ≠ [] := by simp
  have hvl : (vg ++ '/' :: tp : Str).dropWhile isPySpace = vg ++ '/' :: tp :=
    dropWhile_keep_append isPySpace vg _ hvg.1
      (dropWhile_all_false isPySpace vg hvg.2)
  have hvr : (vg ++ '/' :: tp : Str).reverse.dropWhile isPySpace
      = (vg ++ '/' :: tp : Str).reverse := by
    rw [List.reverse_append, List.reverse_cons, List.append_assoc]
    exact dropWhile_keep_append isPySpace tp.reverse _ (by simpa using htp.1)
      (dropWhile_all_false isPySpace tp.reverse
        (fun c hc => htp.2 c (List.mem_reverse.mp hc)))
  have hs := handle_line_split (str "lvm_pool") (vg ++ '/' :: tp)
    (by decide) hv0 hvl hvr
  have hsplit : pySplitChar '/' (vg ++ '/' :: tp) = [vg, tp] := by
    rw [pySplitChar_append_sep '/' vg tp h1, pySplitChar_of_not_mem '/' tp h2]
  unfold handle_line
  rw [hs]
  have hnm : (str "lvm_pool") ∉ bool_options := by decide
  have hne1 : str "lvm_pool" ≠ str "default_template" := by decide
  have hne2 : str "lvm_pool" ≠ str "templates_to_install" := by decide
  simp [hnm, hne1, hne2, hsplit]

/-- A concrete `QubesData` with the constructor defaults, as produced on
a machine where all template families are available. -/
def sampleQD : QubesData :=
  initQubesData true true true true
    [(str "fedora", str "Fedora 33")]
    [(str "fedora", str "33"), (str "debian", str "10"), (str "whonix", str "15")]
    (some (str "qubes_dom0", str "vm-pool"))

theorem handle_line_disj (q : QubesData) (line : Str) :
    (handle_line q line).2 = none ∨ (handle_line q line).1 = q := by
  unfold handle_line
  split
  · split_ifs <;>
      first
        | (left; rfl)
        | (right; rfl)
        | (split <;> first | (left; rfl) | (right; rfl))
  · right; rfl

/-- C3: `handle_line` is atomic on failure: whenever it raises a
`KickstartValueError` (a `some` error component), the record — every
field, including `seen` — is exactly as it was before the call. -/
theorem c3_parse_failure_atomic (q : QubesData) (line e : Str)
    (h : (handle_line q line).2 = some e) :
    (handle_line q line).1 = q := by
  rcases handle_line_disj q line with h0 | h0
  · rw [h0] at h; exact absurd h (by simp)
  · exact h0

/-- C3 witness: a line with an unrecognized key fails and leaves the
record untouched. -/
theorem c3_parse_failure_atomic_witness :
    (handle_line sampleQD (str "bogus 1")).2
        = some (str "invalid parameter: bogus") ∧
    (handle_line sampleQD (str "bogus 1")).1 = sampleQD :=
  ⟨by decide, c3_parse_failure_atomic sampleQD (str "bogus 1")
    (str "invalid parameter: bogus") (by decide)⟩

/-- C4: parsing a line whose key is a boolean option key sets that
boolean field according to the case-insensitive value `true`/`false`
and sets `seen`; any other value raises a fatal parse error. -/
theorem c4_bool_option_lines (q : QubesData) (line param value : Str)
    (hsplit : pySplitWs1 (pyStrip line) = [param, value])
    (hmem : param ∈ bool_options) :
    (pyLower value = str "true" →
      handle_line q line = ({ setBoolOpt q param true with seen := true }, none)) ∧
    (pyLower value = str "false" →
      handle_line q line = ({ setBoolOpt q param false with seen := true }, none)) ∧
    (pyLower value ≠ str "true" → pyLower value ≠ str "false" →
      handle_line q line
        = (q, some (str "invalid value for bool property: " ++ line))) := by
  refine ⟨?_, ?_, ?_⟩
  · intro hv
    unfold handle_line
    rw [hsplit]
    have hd : (decide (str "true" = str "true")) = true := by decide
    simp [hmem, hv, hd]
  · intro hv
    unfold handle_line
    rw [hsplit]
    have hd : (decide (str "false" = str "true")) = false := by decide
    simp [hmem, hv, hd]
  · intro h1 h2
    unfold handle_line
    rw [hsplit]
    simp [hmem, h1, h2]

/-- C4 witness: `"usbvm TRUE"` sets `usbvm` to `True` and `seen`. -/
theorem c4_bool_option_lines_witness :
    pySplitWs1 (pyStrip (str "usbvm TRUE")) = [str "usbvm", str "TRUE"] ∧
    (str "usbvm") ∈ bool_options ∧
    handle_line sampleQD (str "usbvm TRUE")
      = ({ setBoolOpt sampleQD (str "usbvm") true with seen := true }, none) :=
  ⟨by decide, by decide,
    (c4_bool_option_lines sampleQD (str "usbvm TRUE") (str "usbvm")
      (str "TRUE") (by decide) (by decide)).1 (by decide)⟩

/-- C1 counterexample: for the default record (whose `default_template`
is unset), serializing emits `"default_template None"`, and re-parsing
the emitted body lines sets `default_template` to the *string* `"None"`
rather than leaving it unset — the round trip does not reproduce the
field values. -/
theorem c1_counterexample :
    ¬ ConfigEq (feedLines sampleQD (serializeBodyLines sampleQD)).1 sampleQD := by
  decide

theorem feedLines_cons_ok (q q' : QubesData) (l : Str) (ls : List Str)
    (h : handle_line q l = (q', none)) :
    feedLines q (l :: ls) = feedLines q' ls := by
  conv_lhs => rw [feedLines]
  rw [h]

/-- C1 (amended): serialize-then-reparse reproduces the nine boolean
options, `default_template`, `templates_to_install` and `vg_tpool`,
provided `default_template` is actually set to a whitespace-free
nonempty name, the template list is a nonempty list of such names, and
the pool names (when a pool is set) are whitespace-free, slash-free and
nonempty.  (The unconditional claim fails: an unset `default_template`
serializes to the literal token `"None"`, which re-parses to the string
`"None"`, see `c1_counterexample`.) -/
theorem c1_roundtrip_amended (q : QubesData) (t : Str)
    (hdt : q.default_template = some t) (ht : IsToken t)
    (hti0 : q.templates_to_install ≠ [])
    (hti : ∀ s ∈ q.templates_to_install, IsToken s)
    (hvg : ∀ vg tp, q.vg_tpool = some (vg, tp) →
      IsToken vg ∧ IsToken tp ∧ '/' ∉ vg ∧ '/' ∉ tp) :
    (feedLines q (serializeBodyLines q)).2 = none ∧
    ConfigEq (feedLines q (serializeBodyLines q)).1 q := by
  rcases hpool : q.vg_tpool with _ | ⟨vg, tp⟩
  · have hbody : serializeBodyLines q =
        [mkLine (str "system_vms") (pyBoolStr q.system_vms),
         mkLine (str "disp_firewallvm_and_usbvm") (pyBoolStr q.disp_firewallvm_and_usbvm),
         mkLine (str "disp_netvm") (pyBoolStr q.disp_netvm),
         mkLine (str "default_vms") (pyBoolStr q.default_vms),
         mkLine (str "whonix_vms") (pyBoolStr q.whonix_vms),
         mkLine (str "whonix_default") (pyBoolStr q.whonix_default),
         mkLine (str "usbvm") (pyBoolStr q.usbvm),
         mkLine (str "usbvm_with_netvm") (pyBoolStr q.usbvm_with_netvm),
         mkLine (str "skip") (pyBoolStr q.skip),
         mkLine (str "default_template") t,
         mkLine (str "templates_to_install") (pyJoin [' '] q.templates_to_install)] := by
      unfold serializeBodyLines
      rw [hdt, hpool]
      rfl
    have hfeed : feedLines q (serializeBodyLines q)
        = ({ q with default_template := some t, seen := true }, none) := by
      rw [hbody]
      refine Eq.trans (feedLines_cons_ok _ _ _ _
        (handle_line_bool q (str "system_vms") q.system_vms (by decide))) ?_
      show feedLines { q with seen := true } _ = _
      refine Eq.trans (feedLines_cons_ok _ _ _ _
        (handle_line_bool _ (str "disp_firewallvm_and_usbvm") q.disp_firewallvm_and_usbvm (by decide))) ?_
      show feedLines { q with seen := true } _ = _
      refine Eq.trans (feedLines_cons_ok _ _ _ _
        (handle_line_bool _ (str "disp_netvm") q.disp_netvm (by decide))) ?_
      show feedLines { q with seen := true } _ = _
      refine Eq.trans (feedLines_cons_ok _ _ _ _
        (handle_line_bool _ (str "default_vms") q.default_vms (by decide))) ?_
      show feedLines { q with seen := true } _ = _
      refine Eq.trans (feedLines_cons_ok _ _ _ _
        (handle_line_bool _ (str "whonix_vms") q.whonix_vms (by decide))) ?_
      show feedLines { q with seen := true } _ = _
      refine Eq.trans (feedLines_cons_ok _ _ _ _
        (handle_line_bool _ (str "whonix_default") q.whonix_default (by decide))) ?_
      show feedLines { q with seen := true } _ = _
      refine Eq.trans (feedLines_cons_ok _ _ _ _
        (handle_line_bool _ (str "usbvm") q.usbvm (by decide))) ?_
      show feedLines { q with seen := true } _ = _
      refine Eq.trans (feedLines_cons_ok _ _ _ _
        (handle_line_bool _ (str "usbvm_with_netvm") q.usbvm_with_netvm (by decide))) ?_
      show feedLines { q with seen := true } _ = _
      refine Eq.trans (feedLines_cons_ok _ _ _ _
        (handle_line_bool _ (str "skip") q.skip (by decide))) ?_
      show feedLines { q with seen := true } _ = _
      refine Eq.trans (feedLines_cons_ok _ _ _ _
        (handle_line_dt _ t ht)) ?_
      show feedLines { q with default_template := some t, seen := true } _ = _
      refine Eq.trans (feedLines_cons_ok _ _ _ _
        (handle_line_ti _ q.templates_to_install hti0 hti)) ?_
      show feedLines { q with default_template := some t, seen := true } _ = _
      rfl
    rw [hfeed]
    exact ⟨rfl, rfl, rfl, rfl, rfl, rfl, rfl, rfl, rfl, rfl, hdt.symm, rfl, rfl⟩
  · obtain ⟨hvg1, hvg2, hvg3, hvg4⟩ := hvg vg tp hpool
    have hbody : serializeBodyLines q =
        [mkLine (str "system_vms") (pyBoolStr q.system_vms),
         mkLine (str "disp_firewallvm_and_usbvm") (pyBoolStr q.disp_firewallvm_and_usbvm),
         mkLine (str "disp_netvm") (pyBoolStr q.disp_netvm),
         mkLine (str "default_vms") (pyBoolStr q.default_vms),
         mkLine (str "whonix_vms") (pyBoolStr q.whonix_vms),
         mkLine (str "whonix_default") (pyBoolStr q.whonix_default),
         mkLine (str "usbvm") (pyBoolStr q.usbvm),
         mkLine (str "usbvm_with_netvm") (pyBoolStr q.usbvm_with_netvm),
         mkLine (str "skip") (pyBoolStr q.skip),
         mkLine (str "default_template") t,
         mkLine (str "templates_to_install") (pyJoin [' '] q.templates_to_install),
         mkLine (str "lvm_pool") (vg ++ '/' :: tp)] := by
      unfold serializeBodyLines
      rw [hdt, hpool]
      rfl
    have hfeed : feedLines q (serializeBodyLines q)
        = ({ q with default_template := some t, vg_tpool := some (vg, tp), seen := true }, none) := by
      rw [hbody]
      refine Eq.trans (feedLines_cons_ok _ _ _ _
        (handle_line_bool q (str "system_vms") q.system_vms (by decide))) ?_
      show feedLines { q with seen := true } _ = _
      refine Eq.trans (feedLines_cons_ok _ _ _ _
        (handle_line_bool _ (str "disp_firewallvm_and_usbvm") q.disp_firewallvm_and_usbvm (by decide))) ?_
      show feedLines { q with seen := true } _ = _
      refine Eq.trans (feedLines_cons_ok _ _ _ _
        (handle_line_bool _ (str "disp_netvm") q.disp_netvm (by decide))) ?_
      show feedLines { q with seen := true } _ = _
      refine Eq.trans (feedLines_cons_ok _ _ _ _
        (handle_line_bool _ (str "default_vms") q.default_vms (by decide))) ?_
      show feedLines { q with seen := true } _ = _
      refine Eq.trans (feedLines_cons_ok _ _ _ _
        (handle_line_bool _ (str "whonix_vms") q.whonix_vms (by decide))) ?_
      show feedLines { q with seen := true } _ = _
      refine Eq.trans (feedLines_cons_ok _ _ _ _
        (handle_line_bool _ (str "whonix_default") q.whonix_default (by decide))) ?_
      show feedLines { q with seen := true } _ = _
      refine Eq.trans (feedLines_cons_ok _ _ _ _
        (handle_line_bool _ (str "usbvm") q.usbvm (by decide))) ?_
      show feedLines { q with seen := true } _ = _
      refine Eq.trans (feedLines_cons_ok _ _ _ _
        (handle_line_bool _ (str "usbvm_with_netvm") q.usbvm_with_netvm (by decide))) ?_
      show feedLines { q with seen := true } _ = _
      refine Eq.trans (feedLines_cons_ok _ _ _ _
        (handle_line_bool _ (str "skip") q.skip (by decide))) ?_
      show feedLines { q with seen := true } _ = _
      refine Eq.trans (feedLines_cons_ok _ _ _ _
        (handle_line_dt _ t ht)) ?_
      show feedLines { q with default_template := some t, seen := true } _ = _
      refine Eq.trans (feedLines_cons_ok _ _ _ _
        (handle_line_ti _ q.templates_to_install hti0 hti)) ?_
      show feedLines { q with default_template := some t, seen := true } _ = _
      refine Eq.trans (feedLines_cons_ok _ _ _ _
        (handle_line_pool _ vg tp hvg1 hvg2 hvg3 hvg4)) ?_
      show feedLines { q with default_template := some t, vg_tpool := some (vg, tp), seen := true } _ = _
      rfl
    rw [hfeed]
    exact ⟨rfl, rfl, rfl, rfl, rfl, rfl, rfl, rfl, rfl, rfl, hdt.symm, rfl, hpool.symm⟩

/-- A concrete record in the serializable subset: `default_template`
set, token-shaped names throughout. -/
def c1SampleQD : QubesData := { sampleQD with default_template := some (str "fedora") }

/-- C1 witness: the amended round trip holds at a concrete record. -/
theorem c1_roundtrip_amended_witness :
    (feedLines c1SampleQD (serializeBodyLines c1SampleQD)).2 = none ∧
    ConfigEq (feedLines c1SampleQD (serializeBodyLines c1SampleQD)).1 c1SampleQD := by
  refine c1_roundtrip_amended c1SampleQD (str "fedora") (by decide) (by decide)
    (by decide) (by decide) ?_
  intro vg tp h
  rw [show c1SampleQD.vg_tpool = some (str "qubes_dom0", str "vm-pool") from rfl] at h
  injection h with h'
  obtain ⟨rfl, rfl⟩ : str "qubes_dom0" = vg ∧ str "vm-pool" = tp :=
    ⟨congrArg Prod.fst h', congrArg Prod.snd h'⟩
  exact ⟨by decide, by decide, by decide, by decide⟩

/-- Python `s.replace("--", "=")` (qubes.py lines 198 and 204): scan
left to right, replacing non-overlapping occurrences. -/
def replaceDoubleHyphen : Str → Str
  | [] => []
  | [c] => [c]
  | c :: d :: rest =>
    if c = '-' ∧ d = '-' then '=' :: replaceDoubleHyphen rest
    else c :: replaceDoubleHyphen (d :: rest)

theorem rdh_pair (rest : Str) :
    replaceDoubleHyphen ('-' :: '-' :: rest) = '=' :: replaceDoubleHyphen rest := by
  rw [replaceDoubleHyphen, if_pos ⟨rfl, rfl⟩]

theorem rdh_ne (c : Char) (x : Str) (hc : c ≠ '-') :
    replaceDoubleHyphen (c :: x) = c :: replaceDoubleHyphen x := by
  cases x with
  | nil => rfl
  | cons d rest => rw [replaceDoubleHyphen, if_neg (by simp [hc])]

/-- Python `s.replace("=", "-")` (qubes.py lines 201-202). -/
def replaceEq : Str → Str
  | [] => []
  | c :: rest => if c = '=' then '-' :: replaceEq rest else c :: replaceEq rest

/-- The probe's unescape pass for device-mapper names (lines 198-202):
turn doubled hyphens into the `=` sentinel, then turn sentinels back
into literal hyphens. -/
def lvmUnescape (s : Str) : Str := replaceEq (replaceDoubleHyphen s)

/-- LVM's device-mapper name escaping, per the source comment at lines
196-197 ("LVM replaces '-' by '--' if name contains a hyphen"): each
literal hyphen is doubled. -/
def lvmEscape : Str → Str
  | [] => []
  | c :: rest => if c = '-' then '-' :: '-' :: lvmEscape rest else c :: lvmEscape rest

/-- C7 counterexample: the escape/unescape round trip is not the
identity on every name containing a literal hyphen — a name that also
contains the `=` sentinel character is corrupted. -/
theorem c7_counterexample :
    '-' ∈ str "a=b-c" ∧ lvmUnescape (lvmEscape (str "a=b-c")) ≠ str "a=b-c" := by
  decide

/-- C7 (amended): for every name free of the internal `=` sentinel
(every legal LVM group/pool name: LVM names cannot contain `=`),
escaping each `-` to `--` and then applying the probe's unescape pass
yields the original name, hyphens included. -/
theorem c7_unescape_inverts_escape (s : Str) (h : '=' ∉ s) :
    lvmUnescape (lvmEscape s) = s := by
  induction s with
  | nil => rfl
  | cons c rest ih =>
    have hrest : '=' ∉ rest := fun hm => h (by simp [hm])
    have hc : c ≠ '=' := fun he => h (by simp [he])
    by_cases hd : c = '-'
    · subst hd
      rw [show lvmEscape ('-' :: rest) = '-' :: '-' :: lvmEscape rest by
        rw [lvmEscape, if_pos rfl]]
      unfold lvmUnescape at ih ⊢
      rw [rdh_pair, show replaceEq ('=' :: replaceDoubleHyphen (lvmEscape rest))
          = '-' :: replaceEq (replaceDoubleHyphen (lvmEscape rest)) by
        rw [replaceEq, if_pos rfl]]
      rw [ih hrest]
    · rw [show lvmEscape (c :: rest) = c :: lvmEscape rest by
        rw [lvmEscape, if_neg hd]]
      unfold lvmUnescape at ih ⊢
      rw [rdh_ne c (lvmEscape rest) hd,
        show replaceEq (c :: replaceDoubleHyphen (lvmEscape rest))
          = c :: replaceEq (replaceDoubleHyphen (lvmEscape rest)) by
        rw [replaceEq, if_neg hc]]
      rw [ih hrest]

/-- C7 witness: the amended round trip at a hyphenated pool name. -/
theorem c7_unescape_inverts_escape_witness :
    '=' ∉ str "qubes-dom0" ∧ lvmUnescape (lvmEscape (str "qubes-dom0")) = str "qubes-dom0" :=
  ⟨by decide, c7_unescape_inverts_escape (str "qubes-dom0") (by decide)⟩

instance {e a : Type} [DecidableEq e] [DecidableEq a] : DecidableEq (Except e a)
  | .error x, .error y => decidable_of_iff (x = y) (by simp)
  | .error _, .ok _ => isFalse fun h => Except.noConfusion h
  | .ok _, .error _ => isFalse fun h => Except.noConfusion h
  | .ok x, .ok y => decidable_of_iff (x = y) (by simp)

/-- Environment of the Storage Topology Probe: the outcome of the
`dmsetup table` query (`none` ≙ `CalledProcessError`), the contents of
`/sys/dev/block/<devnum>/dm/name` per device number, and whether
`lvs --noheadings <vg>/vm-pool` succeeds per volume group. -/
structure ProbeEnv where
  dmsetupTable : Option Str
  dmName : Str → Str
  lvsVmPoolOk : Str → Bool

/-- Lines 195-208 of `get_default_tpool`: resolve (volume group,
optional thin pool) from the lower device-mapper name.  A `ValueError`
from tuple unpacking is an error result. -/
def parseDevname (lower_devname : Str) : Except Str (Str × Option Str) :=
  if (str "-tpool").isSuffixOf lower_devname then
    match pyRsplitChar '-' 2 (replaceDoubleHyphen lower_devname) with
    | [volume_group, thin_pool, _tpool] =>
      Except.ok (replaceEq volume_group, some (replaceEq thin_pool))
    | _ => Except.error (str "ValueError: not enough values to unpack")
  else
    match pyRsplitChar '-' 1 (replaceDoubleHyphen lower_devname) with
    | [volume_group, _lv_name] => Except.ok (replaceEq volume_group, none)
    | _ => Except.error (str "ValueError: not enough values to unpack")

/-- Lines 222-225 of `get_default_tpool`: return the pair only when both
names are truthy (non-`None`, nonempty). -/
def finalPoolCheck (volume_group : Str) (thin_pool : Option Str) : Option (Str × Str) :=
  match thin_pool with
  | some t => if volume_group ≠ [] ∧ t ≠ [] then some (volume_group, t) else none
  | none => none

/-- Lines 210-225 of `get_default_tpool`: when no pool was resolved or
it resolved to `"root-pool"`, probe for `vm-pool` via `lvs`; a probe
failure returns `none`, success adopts `vm-pool`. -/
def tpoolFinish (env : ProbeEnv) (volume_group : Str) (thin_pool : Option Str) :
    Option (Str × Str) :=
  if thin_pool = none ∨ thin_pool = some (str "root-pool") then
    if env.lvsVmPoolOk volume_group then
      finalPoolCheck volume_group (some (str "vm-pool"))
    else none
  else finalPoolCheck volume_group thin_pool

/-- `QubesData.get_default_tpool` (lines 173-225) over a `ProbeEnv`.
`Except.error` marks an uncaught Python exception (`ValueError` from
tuple unpacking). -/
def get_default_tpool (env : ProbeEnv) : Except Str (Option (Str × Str)) :=
  match env.dmsetupTable with
  | none => Except.ok none
  | some root_table =>
    match pySplitCharMax ' ' 3 root_table with
    | [_start, _sectors, target_type, target_args] =>
      if target_type = str "thin" ∨ target_type = str "linear" then
        match pySplitChar ' ' target_args with
        | [lower_devnum, _args] =>
          match parseDevname (rstripNl (env.dmName lower_devnum)) with
          | Except.error e => Except.error e
          | Except.ok (vg, tp) => Except.ok (tpoolFinish env vg tp)
        | _ => Except.error (str "ValueError: not enough values to unpack")
      else Except.ok none
    | _ => Except.error (str "ValueError: not enough values to unpack")

/-- C8: when the resolved pool is `"root-pool"` or absent, the probe's
result is decided by the `lvs` listing of `<vg>/vm-pool`: on failure
`get_default_tpool` returns `none` (no exception), on success it adopts
`vm-pool`. -/
theorem c8_root_pool_fallback (env : ProbeEnv) (tbl s0 s1 tt ta ld ar vg : Str)
    (tp : Option Str)
    (h1 : env.dmsetupTable = some tbl)
    (h2 : pySplitCharMax ' ' 3 tbl = [s0, s1, tt, ta])
    (h3 : tt = str "thin" ∨ tt = str "linear")
    (h4 : pySplitChar ' ' ta = [ld, ar])
    (h5 : parseDevname (rstripNl (env.dmName ld)) = Except.ok (vg, tp))
    (h6 : tp = none ∨ tp = some (str "root-pool"))
    (h7 : vg ≠ []) :
    get_default_tpool env =
      Except.ok (if env.lvsVmPoolOk vg then some (vg, str "vm-pool") else none) := by
  unfold get_default_tpool
  rw [h1]
  show (match pySplitCharMax ' ' 3 tbl with
    | [_start, _sectors, target_type, target_args] =>
      if target_type = str "thin" ∨ target_type = str "linear" then
        match pySplitChar ' ' target_args with
        | [lower_devnum, _args] =>
          match parseDevname (rstripNl (env.dmName lower_devnum)) with
          | Except.error e => Except.error e
          | Except.ok (vg, tp) => Except.ok (tpoolFinish env vg tp)
        | _ => Except.error (str "ValueError: not enough values to unpack")
      else Except.ok none
    | _ => Except.error (str "ValueError: not enough values to unpack")) = _
  rw [h2]
  show (if tt = str "thin" ∨ tt = str "linear" then _ else Except.ok none) = _
  rw [if_pos h3, h4]
  show (match parseDevname (rstripNl (env.dmName ld)) with
    | Except.error e => Except.error e
    | Except.ok (vg, tp) => Except.ok (tpoolFinish env vg tp)) = _
  rw [h5]
  show Except.ok (tpoolFinish env vg tp) = _
  unfold tpoolFinish
  rw [if_pos h6]
  cases hl : env.lvsVmPoolOk vg with
  | true => simp [finalPoolCheck, h7, show (str "vm-pool" : Str) ≠ [] by decide]
  | false => simp

/-- A concrete probe environment: thin root on
`qubes--dom0-root--pool-tpool`, with `vm-pool` present. -/
def probeEnvW : ProbeEnv :=
  { dmsetupTable := some (str "0 8388608 thin 253:3 0")
    dmName := fun _ => str "qubes--dom0-root--pool-tpool\n"
    lvsVmPoolOk := fun _ => true }

/-- C8 witness: on the conventional layout (`root-pool` resolved,
`vm-pool` present) the probe adopts `vm-pool`. -/
theorem c8_root_pool_fallback_witness :
    get_default_tpool probeEnvW
      = Except.ok (if probeEnvW.lvsVmPoolOk (str "qubes-dom0")
          then some (str "qubes-dom0", str "vm-pool") else none) :=
  c8_root_pool_fallback probeEnvW (str "0 8388608 thin 253:3 0") (str "0")
    (str "8388608") (str "thin") (str "253:3 0") (str "253:3") (str "0")
    (str "qubes-dom0") (some (str "root-pool"))
    rfl (by decide) (Or.inl rfl) (by decide) (by decide) (Or.inr rfl) (by decide)

/-- A `distutils.version.LooseVersion` component: a digit run (as an
integer) or any other matched/unmatched piece (as a string);
`.` separators are dropped. -/
inductive LVComp where
  | num (n : Nat)
  | alpha (s : Str)
deriving DecidableEq, Repr

/-- `[a-z]` of the LooseVersion component pattern. -/
def isLowerAZ (c : Char) : Bool := 'a' ≤ c && c ≤ 'z'

/-- A character matched by none of the LooseVersion component patterns
(`\d`, `[a-z]`, `.`): such characters form unmatched pieces that are
kept as string components. -/
def isOtherC (c : Char) : Bool := !(c.isDigit || isLowerAZ c || c == '.')

def digitsToNat (s : Str) : Nat := s.foldl (fun n c => 10 * n + (c.toNat - 48)) 0

/-- The three LooseVersion run kinds: digit run (`0`), lowercase-letter
run (`1`), unmatched run (`2`). -/
def charKind (c : Char) : Nat := if c.isDigit then 0 else if isLowerAZ c then 1 else 2

/-- Close an accumulated run (characters held in reverse) into a
component; digit runs become integers. -/
def runComp : Nat → Str → LVComp
  | 0, acc => LVComp.num (digitsToNat acc.reverse)
  | _, acc => LVComp.alpha acc.reverse

/-- Scanner for `LooseVersion.parse`: walk the string accumulating the
current maximal run; `.` closes the run and is dropped; a kind change
closes the run. -/
def lvParseAux : Option (Nat × Str) → Str → List LVComp
  | none, [] => []
  | some (k, acc), [] => [runComp k acc]
  | cur, c :: rest =>
    if c == '.' then
      match cur with
      | none => lvParseAux none rest
      | some (k, acc) => runComp k acc :: lvParseAux none rest
    else
      match cur with
      | none => lvParseAux (some (charKind c, [c])) rest
      | some (k, acc) =>
        if k = charKind c then lvParseAux (some (k, c :: acc)) rest
        else runComp k acc :: lvParseAux (some (charKind c, [c])) rest

/-- `LooseVersion.parse`: split the version string into digit runs
(converted to integers), lowercase-letter runs, dropped `.` separators,
and unmatched pieces kept verbatim as string components. -/
def lvParse (s : Str) : List LVComp := lvParseAux none s

/-- Python string comparison: lexicographic by code point. -/
def strCmp : Str → Str → Ordering
  | [], [] => Ordering.eq
  | [], _ :: _ => Ordering.lt
  | _ :: _, [] => Ordering.gt
  | a :: as, b :: bs =>
    if a < b then Ordering.lt else if b < a then Ordering.gt else strCmp as bs

/-- Python list comparison on LooseVersion component lists: step past
equal items, compare the first differing pair (raising `TypeError`,
modelled as `none`, when an integer meets a string), shorter lists
compare less. -/
def lvCmp : List LVComp → List LVComp → Option Ordering
  | [], [] => some Ordering.eq
  | [], _ :: _ => some Ordering.lt
  | _ :: _, [] => some Ordering.gt
  | a :: as, b :: bs =>
    if a = b then lvCmp as bs
    else
      match a, b with
      | LVComp.num x, LVComp.num y => some (compare x y)
      | LVComp.alpha x, LVComp.alpha y => some (strCmp x y)
      | _, _ => none

/-- `LooseVersion.__lt__` on the underlying version strings. -/
def lvLt (a b : Str) : Option Bool :=
  match lvCmp (lvParse a) (lvParse b) with
  | none => none
  | some o => some (o = Ordering.lt)

/-- Stable insertion into a sorted prefix using `LooseVersion.__lt__`;
an incomparable pair propagates the `TypeError`.  (`sorted` in the
source is a stable sort; on keys that are pairwise comparable it
produces the same list as stable insertion sort.) -/
def lvInsert (x : Str) : List Str → Except Str (List Str)
  | [] => Except.ok [x]
  | y :: ys =>
    match lvLt x y with
    | none => Except.error (str "TypeError: unorderable types")
    | some true => Except.ok (x :: y :: ys)
    | some false =>
      match lvInsert x ys with
      | Except.error e => Except.error e
      | Except.ok r => Except.ok (y :: r)

/-- `sorted(installed_kernels)` (line 368). -/
def lvSorted (l : List Str) : Except Str (List Str) :=
  l.foldlM (fun acc x => lvInsert x acc) []

/-- An externally observable side effect of the Setup Pipeline. -/
inductive Event where
  | cmd (args : List Str)
  | rmtree (path : Str)
  | rename (src dst : Str)
  | setgid (gid : Nat)
  | umask (mask : Nat)
deriving DecidableEq, Repr

/-- The pipeline's environment: the `qubes` group, the exit status of
every external command, the kernel directory listing, and the template
package paths. -/
structure Env where
  qubes_gid : Nat
  qubes_group_members : List Str
  cmdOk : List Str → Bool
  vm_kernels : List Str
  template_rpm : Str → Option Str

/-- Pipeline state: the `QubesData` record plus the trace of side
effects performed so far. -/
structure PState where
  cfg : QubesData
  trace : List Event

/-- A raised Python exception in the pipeline model. -/
inductive PErr where
  | cmdFailed (command : List Str)
  | keyError (key : Str)
  | typeError (msg : Str)
  | indexError
  | noUser (msg : Str)
  | configFailed (msg : Str)
  | aggregated (msg : Str)
  | rpmMissing (template : Str)
deriving DecidableEq, Repr

/-- Python `str(e)` for the exceptions the pipeline aggregates. -/
def errStr : PErr → Str
  | PErr.cmdFailed command => pyJoin [' '] command ++ str " failed"
  | PErr.keyError key => key
  | PErr.typeError msg => msg
  | PErr.indexError => str "list index out of range"
  | PErr.noUser msg => msg
  | PErr.configFailed msg => msg
  | PErr.aggregated msg => msg
  | PErr.rpmMissing t => t

/-- `QubesData.run_command` (lines 336-362): the command is always
invoked (traced); a non-zero exit raises unless `ignore_failure`. -/
def run_command (env : Env) (command : List Str) (ignore_failure : Bool)
    (st : PState) : PState × Option PErr :=
  ({ st with trace := st.trace ++ [Event.cmd command] },
   if ignore_failure || env.cmdOk command then none
   else some (PErr.cmdFailed command))

/-- Sequencing with exception propagation: a raised exception skips the
continuation, keeping the state at the point of the raise. -/
def pseq (r : PState × Option PErr) (k : PState → PState × Option PErr) :
    PState × Option PErr :=
  match r with
  | (st, none) => k st
  | (st, some e) => (st, some e)

/-- `QubesData.configure_default_kernel` (lines 364-370): sort the
kernel listing LooseVersion-wise, take the last, set it as default. -/
def configure_default_kernel (env : Env) (st : PState) : PState × Option PErr :=
  match lvSorted env.vm_kernels with
  | Except.error _ => (st, some (PErr.typeError (str "unorderable types in version sort")))
  | Except.ok [] => (st, some PErr.indexError)
  | Except.ok (k :: ks) =>
    run_command env
      [str "/usr/bin/qubes-prefs", str "default-kernel", (k :: ks).getLast (by simp)]
      false st

/-- C9: with kernels `4.19.0-1`, `4.19.0-2`, `4.18.0-5` installed, the
version-aware sort selects `4.19.0-2` — a version no listed kernel
exceeds — and passes it to the `qubes-prefs default-kernel` command. -/
theorem c9_default_kernel_pick (env : Env) (st : PState)
    (h : env.vm_kernels = [str "4.19.0-1", str "4.19.0-2", str "4.18.0-5"]) :
    (configure_default_kernel env st).1.trace
      = st.trace ++ [Event.cmd [str "/usr/bin/qubes-prefs", str "default-kernel",
          str "4.19.0-2"]] ∧
    ∀ k ∈ env.vm_kernels, lvLt (str "4.19.0-2") k ≠ some true := by
  constructor
  · unfold configure_default_kernel
    rw [h]
    have hsort : lvSorted [str "4.19.0-1", str "4.19.0-2", str "4.18.0-5"]
        = Except.ok [str "4.18.0-5", str "4.19.0-1", str "4.19.0-2"] := by decide
    rw [hsort]
    rfl
  · rw [h]
    intro k hk
    simp only [List.mem_cons, List.not_mem_nil, or_false] at hk
    rcases hk with rfl | rfl | rfl <;> decide

/-- A concrete environment for the kernel-selection scenario. -/
def envC9 : Env :=
  { qubes_gid := 989
    qubes_group_members := [str "user"]
    cmdOk := fun _ => true
    vm_kernels := [str "4.19.0-1", str "4.19.0-2", str "4.18.0-5"]
    template_rpm := fun _ => none }

/-- The empty starting pipeline state over the sample record. -/
def psEmpty : PState := { cfg := sampleQD, trace := [] }

/-- C9 witness: the scenario evaluated concretely. -/
theorem c9_default_kernel_pick_witness :
    (configure_default_kernel envC9 psEmpty).1.trace
      = psEmpty.trace ++ [Event.cmd [str "/usr/bin/qubes-prefs", str "default-kernel",
          str "4.19.0-2"]] ∧
    ∀ k ∈ envC9.vm_kernels, lvLt (str "4.19.0-2") k ≠ some true :=
  c9_default_kernel_pick envC9 psEmpty rfl

def TEMPLATES_RPM_PATH : Str := str "/var/lib/qubes/template-packages/"

/-- `QubesData.configure_default_pool` (lines 372-384). -/
def configure_default_pool (env : Env) (st : PState) : PState × Option PErr :=
  match st.cfg.vg_tpool with
  | none => (st, none)
  | some (volume_group, thin_pool) =>
    pseq (run_command env
      [str "/usr/bin/qvm-pool", str "--add", thin_pool, str "lvm_thin", str "-o",
       str "volume_group=" ++ volume_group ++ str ",thin_pool=" ++ thin_pool
         ++ str ",revisions_to_keep=2"] false st)
      (fun st => run_command env
        [str "/usr/bin/qubes-prefs", str "default-pool", thin_pool] false st)

/-- The dictionary key used by `install_templates` for an entry (lines
388-391): `whonix`-prefixed entries share the `whonix` version. -/
def whonixKey (t : Str) : Str :=
  if (str "whonix").isPrefixOf t then str "whonix" else t

/-- The loop of `QubesData.install_templates` (lines 386-398): per
entry, look the version up (`KeyError` when absent, before any `rpm`
invocation for that entry), resolve the package file and install it;
after the loop, delete the staging directory.  A missing package file
makes `util.startProgram` raise before the command runs. -/
def installGo (env : Env) (versions : List (Str × Str)) :
    List Str → PState → PState × Option PErr
  | [], st => ({ st with trace := st.trace ++ [Event.rmtree TEMPLATES_RPM_PATH] }, none)
  | t :: ts, st =>
    match dictGet versions (whonixKey t) with
    | none => (st, some (PErr.keyError (whonixKey t)))
    | some _version =>
      match env.template_rpm t with
      | none => (st, some (PErr.rpmMissing t))
      | some rpm =>
        pseq (run_command env [str "/usr/bin/rpm", str "-i", rpm] false st)
          (installGo env versions ts)

/-- `QubesData.install_templates` (lines 386-398). -/
def install_templates (env : Env) (st : PState) : PState × Option PErr :=
  installGo env st.cfg.templates_versions st.cfg.templates_to_install st

def dom0Services : List Str :=
  [str "rdisc", str "kdump", str "libvirt-guests", str "salt-minion"]

/-- The loop of `QubesData.configure_dom0` (lines 400-405): disable and
stop each service, ignoring failures. -/
def dom0Go (env : Env) : List Str → PState → PState × Option PErr
  | [], st => (st, none)
  | svc :: rest, st =>
    pseq (run_command env
        [str "systemctl", str "disable", svc ++ str ".service"] true st)
      (fun st => pseq (run_command env
          [str "systemctl", str "stop", svc ++ str ".service"] true st)
        (dom0Go env rest))

/-- `QubesData.configure_dom0` (lines 400-405). -/
def configure_dom0 (env : Env) (st : PState) : PState × Option PErr :=
  dom0Go env dom0Services st

/-- `QubesData.configure_default_template` (lines 407-411): when a
default template is set (non-`None`, nonempty), append its version
suffix to the field, then run `qubes-prefs default-template`. -/
def configure_default_template (env : Env) (st : PState) : PState × Option PErr :=
  match st.cfg.default_template with
  | none => (st, none)
  | some t =>
    if t = [] then (st, none)
    else
      match dictGet st.cfg.templates_versions t with
      | none => (st, some (PErr.keyError t))
      | some v =>
        let st1 := { st with cfg :=
          { st.cfg with default_template := some (t ++ '-' :: v) } }
        run_command env
          [str "/usr/bin/qubes-prefs", str "default-template", t ++ '-' :: v]
          false st1

/-- The state list built by `QubesData.configure_qubes` (lines 416-437). -/
def qubesStates (cfg : QubesData) : List Str :=
  (if cfg.system_vms then
    [str "qvm.sys-net", str "qvm.sys-firewall", str "qvm.default-dispvm"] else [])
  ++ (if cfg.disp_firewallvm_and_usbvm then
    [str "pillar.qvm.disposable-sys-firewall", str "pillar.qvm.disposable-sys-usb"] else [])
  ++ (if cfg.disp_netvm then [str "pillar.qvm.disposable-sys-net"] else [])
  ++ (if cfg.default_vms then
    [str "qvm.personal", str "qvm.work", str "qvm.untrusted", str "qvm.vault"] else [])
  ++ (if cfg.whonix_available && cfg.whonix_vms then
    [str "qvm.sys-whonix", str "qvm.anon-whonix"] else [])
  ++ (if cfg.whonix_default then [str "qvm.updates-via-whonix"] else [])
  ++ (if cfg.usbvm then [str "qvm.sys-usb"] else [])
  ++ (if cfg.usbvm_with_netvm then [str "pillar.qvm.sys-net-as-usbvm"] else [])

/-- The `qubesctl top.enable` invocation for one state (lines 449-455):
pillar states are enabled with the prefix stripped and `pillar=True`. -/
def enableCmd (state : Str) : List Str :=
  if (str "pillar.").isPrefixOf state then
    [str "qubesctl", str "top.enable", state.drop 7, str "pillar=True"]
  else [str "qubesctl", str "top.enable", state]

/-- The enable loop of `configure_qubes` (lines 449-455). -/
def enableGo (env : Env) : List Str → PState → PState × Option PErr
  | [], st => (st, none)
  | s :: rest, st => pseq (run_command env (enableCmd s) false st) (enableGo env rest)

/-- The disable loop of `configure_qubes` (lines 462-464): only
non-pillar states are disabled. -/
def disableGo (env : Env) : List Str → PState → PState × Option PErr
  | [], st => (st, none)
  | s :: rest, st =>
    if (str "pillar.").isPrefixOf s then disableGo env rest st
    else pseq (run_command env [str "qubesctl", str "top.disable", s] false st)
      (disableGo env rest)

/-- The operator guidance raised when the highstate pass (or the
subsequent disabling) fails (lines 466-471). -/
def saltGuidanceMsg : Str :=
  str "Qubes initial configuration failed. Login to the system and check /var/log/salt/minion for details. You can retry configuration by calling \x27sudo qubesctl --all state.highstate\x27 in dom0 (you will get detailed state there)."

/-- The `try`/`except` around the highstate pass and the disable loop
(lines 457-471): any exception there is replaced by the operator
guidance. -/
def qubesTail : PState × Option PErr → PState × Option PErr
  | (st, none) => (st, none)
  | (st, some _) => (st, some (PErr.configFailed saltGuidanceMsg))

/-- `QubesData.configure_qubes` (lines 413-471). -/
def configure_qubes (env : Env) (st : PState) : PState × Option PErr :=
  let states := qubesStates st.cfg
  let st0 := { st with trace := st.trace
    ++ [Event.rename (str "/var/log/salt/minion") (str "/var/log/salt/minion.install")] }
  pseq (run_command env [str "qubesctl", str "saltutil.clear_cache"] false st0) (fun st =>
  pseq (run_command env [str "qubesctl", str "saltutil.sync_all"] false st) (fun st =>
  pseq (enableGo env states st) (fun st =>
    qubesTail (pseq (run_command env
        [str "qubesctl", str "--all", str "state.highstate"] false st)
      (disableGo env states)))))

/-- `QubesData.configure_network` (lines 480-492). -/
def configure_network (env : Env) (st : PState) : PState × Option PErr :=
  let default_netvm := str "sys-firewall"
  let updatevm := if st.cfg.whonix_default then str "sys-whonix" else default_netvm
  pseq (run_command env
      [str "/usr/bin/qvm-prefs", str "sys-firewall", str "netvm", str "sys-net"] false st)
    (fun st => pseq (run_command env
        [str "/usr/bin/qubes-prefs", str "default-netvm", default_netvm] false st)
      (fun st => pseq (run_command env
          [str "/usr/bin/qubes-prefs", str "updatevm", updatevm] false st)
        (fun st => pseq (run_command env
            [str "/usr/bin/qubes-prefs", str "clockvm", str "sys-net"] false st)
          (fun st => run_command env
            [str "/usr/bin/qvm-start", default_netvm] false st))))

/-- Python's message for `None + "-dvm"`. -/
def typeErrNoneStr : Str :=
  str "unsupported operand type(s) for +: \x27NoneType\x27 and \x27str\x27"

/-- `QubesData.configure_default_dvm` (lines 473-478): with
`default_template` unset, `self.default_template + \x27-dvm\x27` raises
`TypeError` before the command is built. -/
def configure_default_dvm (env : Env) (st : PState) : PState × Option PErr :=
  match st.cfg.default_template with
  | none => (st, some (PErr.typeError typeErrNoneStr))
  | some t =>
    run_command env
      [str "/usr/bin/qubes-prefs", str "default-dispvm", t ++ str "-dvm"] false st

/-- The `try`/`except` around `configure_default_dvm` plus the final
aggregation (lines 324-334): a failure is caught, recorded under the
"Default DVM" stage, and re-raised as the combined message. -/
def dvmTail (env : Env) (st : PState) : PState × Option PErr :=
  match configure_default_dvm env st with
  | (st, none) => (st, none)
  | (st, some e) => (st, some (PErr.aggregated
      (str "Default DVM failed:\n" ++ errStr e ++ str "\n\n")))

/-- `QubesData.do_setup` (lines 293-334). -/
def do_setup (env : Env) (st : PState) : PState × Option PErr :=
  match env.qubes_group_members with
  | [] => (st, some (PErr.noUser
      (str "You must create a user account to create default VMs.")))
  | u :: _ =>
    let st := { st with cfg := { st.cfg with qubes_user := some u } }
    if st.cfg.skip then (st, none)
    else
      let st := { st with trace := st.trace
        ++ [Event.setgid env.qubes_gid, Event.umask 7] }
      pseq (configure_default_kernel env st) (fun st =>
      pseq (configure_default_pool env st) (fun st =>
      pseq (install_templates env st) (fun st =>
      pseq (configure_dom0 env st) (fun st =>
      pseq (configure_default_template env st) (fun st =>
      pseq (configure_qubes env st) (fun st =>
      pseq (if st.cfg.system_vms then configure_network env st else (st, none)) (fun st =>
      pseq (if st.cfg.usbvm && !st.cfg.usbvm_with_netvm then
              run_command env
                [str "systemctl", str "start", str "qubes-vm@sys-usb.service"] false st
            else (st, none)) (dvmTail env))))))))

/-- A concrete all-commands-succeed environment in which `do_setup`
runs to completion. -/
def envC2 : Env :=
  { qubes_gid := 989
    qubes_group_members := [str "user"]
    cmdOk := fun _ => true
    vm_kernels := [str "5.10.0-1"]
    template_rpm := fun t =>
      some (str "/var/lib/qubes/template-packages/qubes-template-" ++ t
        ++ str "-1.rpm") }

/-- A concrete record with a default template selected. -/
def cfgC2 : QubesData :=
  { sampleQD with
    default_template := some (str "fedora")
    templates_to_install := [str "fedora"] }

/-- C2 counterexample: `do_setup` does *not* leave every configuration
field unchanged — `configure_default_template` (line 410) rewrites
`default_template` from `"fedora"` to `"fedora-33"`. -/
theorem c2_counterexample :
    (do_setup envC2 ⟨cfgC2, []⟩).1.cfg.default_template
      ≠ cfgC2.default_template := by
  decide

/-- Equality of all serializable configuration fields except
`default_template`. -/
def FrameEq (a b : QubesData) : Prop :=
  a.system_vms = b.system_vms ∧
  a.disp_firewallvm_and_usbvm = b.disp_firewallvm_and_usbvm ∧
  a.disp_netvm = b.disp_netvm ∧
  a.default_vms = b.default_vms ∧
  a.whonix_vms = b.whonix_vms ∧
  a.whonix_default = b.whonix_default ∧
  a.usbvm = b.usbvm ∧
  a.usbvm_with_netvm = b.usbvm_with_netvm ∧
  a.skip = b.skip ∧
  a.templates_to_install = b.templates_to_install ∧
  a.vg_tpool = b.vg_tpool

theorem frameEq_refl (a : QubesData) : FrameEq a a :=
  ⟨rfl, rfl, rfl, rfl, rfl, rfl, rfl, rfl, rfl, rfl, rfl⟩

theorem frameEq_of_eq {a b : QubesData} (h : a = b) : FrameEq a b := h ▸ frameEq_refl b

theorem run_command_cfg (env : Env) (command : List Str) (ig : Bool) (st : PState) :
    ((run_command env command ig st).1).cfg = st.cfg := rfl

theorem pseq_cfg (r : PState × Option PErr) (k : PState → PState × Option PErr)
    (c : QubesData) (hr : ((r.1).cfg) = c)
    (hk : ∀ st, (((k st).1).cfg) = st.cfg) :
    (((pseq r k).1).cfg) = c := by
  rcases r with ⟨s, e⟩
  cases e with
  | none => exact (hk s).trans hr
  | some e => exact hr

theorem configure_default_kernel_cfg (env : Env) (st : PState) :
    ((configure_default_kernel env st).1).cfg = st.cfg := by
  unfold configure_default_kernel
  split <;> rfl

theorem configure_default_pool_cfg (env : Env) (st : PState) :
    ((configure_default_pool env st).1).cfg = st.cfg := by
  unfold configure_default_pool
  split
  · rfl
  · exact pseq_cfg _ _ _ rfl (fun s => rfl)

theorem installGo_cfg (env : Env) (versions : List (Str × Str)) (ts : List Str) :
    ∀ st : PState, ((installGo env versions ts st).1).cfg = st.cfg := by
  induction ts with
  | nil => intro st; rfl
  | cons t ts ih =>
    intro st
    unfold installGo
    split
    · rfl
    · split
      · rfl
      · exact pseq_cfg _ _ _ rfl ih

theorem install_templates_cfg (env : Env) (st : PState) :
    ((install_templates env st).1).cfg = st.cfg :=
  installGo_cfg env st.cfg.templates_versions st.cfg.templates_to_install st

theorem dom0Go_cfg (env : Env) (svcs : List Str) :
    ∀ st : PState, ((dom0Go env svcs st).1).cfg = st.cfg := by
  induction svcs with
  | nil => intro st; rfl
  | cons s svcs ih =>
    intro st
    exact pseq_cfg _ _ _ rfl (fun s' => pseq_cfg _ _ _ rfl ih)

theorem enableGo_cfg (env : Env) (states : List Str) :
    ∀ st : PState, ((enableGo env states st).1).cfg = st.cfg := by
  induction states with
  | nil => intro st; rfl
  | cons s states ih =>
    intro st
    exact pseq_cfg _ _ _ rfl ih

theorem disableGo_cfg (env : Env) (states : List Str) :
    ∀ st : PState, ((disableGo env states st).1).cfg = st.cfg := by
  induction states with
  | nil => intro st; rfl
  | cons s states ih =>
    intro st
    unfold disableGo
    split
    · exact ih st
    · exact pseq_cfg _ _ _ rfl ih

theorem configure_qubes_cfg (env : Env) (st : PState) :
    ((configure_qubes env st).1).cfg = st.cfg := by
  unfold configure_qubes
  refine pseq_cfg _ _ _ rfl (fun s1 => ?_)
  refine pseq_cfg _ _ _ rfl (fun s2 => ?_)
  refine pseq_cfg _ _ _ (enableGo_cfg env (qubesStates st.cfg) s2) (fun s3 => ?_)
  have h4 : ((pseq (run_command env
      [str "qubesctl", str "--all", str "state.highstate"] false s3)
      (disableGo env (qubesStates st.cfg))).1).cfg = s3.cfg :=
    pseq_cfg _ _ _ rfl (disableGo_cfg env (qubesStates st.cfg))
  rcases hres : pseq (run_command env
      [str "qubesctl", str "--all", str "state.highstate"] false s3)
    (disableGo env (qubesStates st.cfg)) with ⟨s4, e⟩
  rw [hres] at h4
  cases e
  · exact h4
  · exact h4

theorem qubesTail_cfg (r : PState × Option PErr) :
    ((qubesTail r).1).cfg = ((r.1)).cfg := by
  rcases r with ⟨s, e⟩
  cases e with
  | none => rfl
  | some e => rfl

theorem qubesTail_ok (r : PState × Option PErr) (h : r.2 = none) :
    (qubesTail r).2 = none := by
  rcases r with ⟨s, e⟩
  cases e with
  | none => rfl
  | some e => exact absurd h (by simp)

theorem configure_network_cfg (env : Env) (st : PState) :
    ((configure_network env st).1).cfg = st.cfg := by
  unfold configure_network
  refine pseq_cfg _ _ _ rfl (fun s1 => ?_)
  refine pseq_cfg _ _ _ rfl (fun s2 => ?_)
  refine pseq_cfg _ _ _ rfl (fun s3 => ?_)
  exact pseq_cfg _ _ _ rfl (fun s4 => rfl)

theorem configure_default_dvm_cfg (env : Env) (st : PState) :
    ((configure_default_dvm env st).1).cfg = st.cfg := by
  unfold configure_default_dvm
  split <;> rfl

theorem configure_dom0_cfg (env : Env) (st : PState) :
    ((configure_dom0 env st).1).cfg = st.cfg :=
  dom0Go_cfg env dom0Services st

theorem pseq_prop₂ (r : PState × Option PErr) (k : PState → PState × Option PErr)
    (P Q : QubesData → Prop)
    (hr : P ((r.1).cfg)) (himp : ∀ c, P c → Q c)
    (hk : ∀ s, P s.cfg → Q (((k s).1).cfg)) :
    Q (((pseq r k).1).cfg) := by
  rcases r with ⟨s, e⟩
  cases e with
  | none => exact hk s hr
  | some e => exact himp _ hr

/-- Invariant holding before the default-template step: all
configuration fields of interest agree with the original record. -/
def PreCfg (base c : QubesData) : Prop :=
  FrameEq c base ∧ c.templates_versions = base.templates_versions ∧
  c.default_template = base.default_template

/-- Invariant holding after the default-template step: everything but
`default_template` agrees, and `default_template` is either untouched
or carries the appended version suffix. -/
def PostCfg (base c : QubesData) : Prop :=
  FrameEq c base ∧
  (c.default_template = base.default_template ∨
    ∃ t v, base.default_template = some t ∧
      dictGet base.templates_versions t = some v ∧
      c.default_template = some (t ++ '-' :: v))

theorem preCfg_to_post (base : QubesData) : ∀ c, PreCfg base c → PostCfg base c :=
  fun _ h => ⟨h.1, Or.inl h.2.2⟩

theorem cdt_post (env : Env) (base : QubesData) (s : PState)
    (hs : PreCfg base s.cfg) :
    PostCfg base ((configure_default_template env s).1).cfg := by
  unfold configure_default_template
  split
  · exact ⟨hs.1, Or.inl hs.2.2⟩
  · rename_i t heq
    split_ifs with ht
    · exact ⟨hs.1, Or.inl hs.2.2⟩
    · split
      · exact ⟨hs.1, Or.inl hs.2.2⟩
      · rename_i v hv
        exact ⟨hs.1, Or.inr ⟨t, v, hs.2.2.symm.trans heq, hs.2.1 ▸ hv, rfl⟩⟩

theorem dvmTail_cfg (env : Env) (s : PState) :
    ((dvmTail env s).1).cfg = s.cfg := by
  unfold dvmTail
  have h := configure_default_dvm_cfg env s
  rcases hd : configure_default_dvm env s with ⟨s', e⟩
  rw [hd] at h
  cases e
  · exact h
  · exact h

/-- C2 (amended): `do_setup` leaves the nine boolean options,
`templates_to_install` and `vg_tpool` of the record unchanged in every
execution; `default_template`, however, is not read-only — when it is
set and the default-template step runs, the step rewrites it to
`"<name>-<version>"` (line 410).  (`do_setup` also fills the
`qubes_user` field, which is not a configuration field.)  The original
claim is refuted by `c2_counterexample`. -/
theorem c2_do_setup_config_frame (env : Env) (st : PState) :
    FrameEq ((do_setup env st).1).cfg st.cfg ∧
    (((do_setup env st).1).cfg.default_template = st.cfg.default_template ∨
      ∃ t v, st.cfg.default_template = some t ∧
        dictGet st.cfg.templates_versions t = some v ∧
        ((do_setup env st).1).cfg.default_template = some (t ++ '-' :: v)) := by
  show PostCfg st.cfg ((do_setup env st).1).cfg
  unfold do_setup
  rcases hmem : env.qubes_group_members with _ | ⟨u, us⟩
  · exact ⟨frameEq_refl _, Or.inl rfl⟩
  · dsimp only
    split_ifs with hskip
    · exact ⟨⟨rfl, rfl, rfl, rfl, rfl, rfl, rfl, rfl, rfl, rfl, rfl⟩, Or.inl rfl⟩
    · refine pseq_prop₂ _ _ (PreCfg st.cfg) (PostCfg st.cfg) ?_ (preCfg_to_post st.cfg) ?_
      · rw [configure_default_kernel_cfg]
        exact ⟨⟨rfl, rfl, rfl, rfl, rfl, rfl, rfl, rfl, rfl, rfl, rfl⟩, rfl, rfl⟩
      · intro s1 hs1
        refine pseq_prop₂ _ _ (PreCfg st.cfg) (PostCfg st.cfg) ?_ (preCfg_to_post st.cfg) ?_
        · rw [configure_default_pool_cfg]; exact hs1
        · intro s2 hs2
          refine pseq_prop₂ _ _ (PreCfg st.cfg) (PostCfg st.cfg) ?_ (preCfg_to_post st.cfg) ?_
          · rw [install_templates_cfg]; exact hs2
          · intro s3 hs3
            refine pseq_prop₂ _ _ (PreCfg st.cfg) (PostCfg st.cfg) ?_ (preCfg_to_post st.cfg) ?_
            · rw [configure_dom0_cfg]; exact hs3
            · intro s4 hs4
              refine pseq_prop₂ _ _ (PostCfg st.cfg) (PostCfg st.cfg) ?_ (fun _ h => h) ?_
              · exact cdt_post env st.cfg s4 hs4
              · intro s5 hs5
                refine pseq_prop₂ _ _ (PostCfg st.cfg) (PostCfg st.cfg) ?_ (fun _ h => h) ?_
                · rw [configure_qubes_cfg]; exact hs5
                · intro s6 hs6
                  refine pseq_prop₂ _ _ (PostCfg st.cfg) (PostCfg st.cfg) ?_ (fun _ h => h) ?_
                  · split
                    · rw [configure_network_cfg]; exact hs6
                    · exact hs6
                  · intro s7 hs7
                    refine pseq_prop₂ _ _ (PostCfg st.cfg) (PostCfg st.cfg) ?_ (fun _ h => h) ?_
                    · split
                      · rw [run_command_cfg]; exact hs7
                      · exact hs7
                    · intro s8 hs8
                      rw [dvmTail_cfg env s8]
                      exact hs8

theorem pseq_ok (r : PState × Option PErr) (k : PState → PState × Option PErr)
    (h : r.2 = none) : pseq r k = k r.1 := by
  rcases r with ⟨s, e⟩
  cases e with
  | none => rfl
  | some e => exact absurd h (by simp)

theorem pseq_err (r : PState × Option PErr) (k : PState → PState × Option PErr)
    (e : PErr) (h : r.2 = some e) : pseq r k = r := by
  rcases r with ⟨s, e'⟩
  cases e' with
  | none => exact absurd h (by simp)
  | some e' => rfl

theorem run_command_ok (env : Env) (command : List Str) (ig : Bool) (st : PState)
    (h : (ig || env.cmdOk command) = true) :
    run_command env command ig st
      = ({ st with trace := st.trace ++ [Event.cmd command] }, none) := by
  unfold run_command
  rw [if_pos h]

theorem run_command_fail (env : Env) (command : List Str) (st : PState)
    (h : env.cmdOk command = false) :
    run_command env command false st
      = ({ st with trace := st.trace ++ [Event.cmd command] },
         some (PErr.cmdFailed command)) := by
  unfold run_command
  rw [if_neg (by simp [h])]

theorem enableGo_ok (env : Env) (states : List Str)
    (h : ∀ s ∈ states, env.cmdOk (enableCmd s) = true) :
    ∀ st, enableGo env states st
      = ({ st with trace := st.trace
            ++ states.map (fun s => Event.cmd (enableCmd s)) }, none) := by
  induction states with
  | nil => intro st; show (st, none) = _; simp
  | cons s rest ih =>
    intro st
    show pseq (run_command env (enableCmd s) false st) (enableGo env rest) = _
    rw [run_command_ok env _ false st (by simp [h s (by simp)])]
    rw [pseq_ok _ _ rfl]
    rw [ih (fun x hx => h x (by simp [hx]))]
    simp

/-- All fourteen states `configure_qubes` can ever enable. -/
def allQubesStates : List Str :=
  [str "qvm.sys-net", str "qvm.sys-firewall", str "qvm.default-dispvm",
   str "pillar.qvm.disposable-sys-firewall", str "pillar.qvm.disposable-sys-usb",
   str "pillar.qvm.disposable-sys-net",
   str "qvm.personal", str "qvm.work", str "qvm.untrusted", str "qvm.vault",
   str "qvm.sys-whonix", str "qvm.anon-whonix",
   str "qvm.updates-via-whonix", str "qvm.sys-usb",
   str "pillar.qvm.sys-net-as-usbvm"]

theorem mem_ite_nil {c : Prop} [Decidable c] {s : Str} {l : List Str}
    (h : s ∈ (if c then l else [])) : s ∈ l := by
  split at h
  · exact h
  · exact absurd h (by simp)

theorem qubesStates_sub (cfg : QubesData) :
    ∀ s ∈ qubesStates cfg, s ∈ allQubesStates := by
  intro s hs
  unfold qubesStates at hs
  simp only [List.mem_append] at hs
  rcases hs with (((((((h | h) | h) | h) | h) | h) | h) | h) <;>
    exact (by decide : _ ⊆ allQubesStates) (mem_ite_nil h)

theorem no_disable_in_enableCmd :
    ∀ s ∈ allQubesStates, str "top.disable" ∉ enableCmd s := by
  decide

set_option maxRecDepth 4000 in
/-- C6: when the `state.highstate` convergence pass fails (all prior
`qubesctl` invocations having succeeded), `configure_qubes` raises the
operator-guidance message — naming the salt minion log and the manual
retry command — and never invokes `qubesctl top.disable` for any state. -/
theorem c6_convergence_failure (env : Env) (cfg : QubesData)
    (hc : env.cmdOk [str "qubesctl", str "saltutil.clear_cache"] = true)
    (hs : env.cmdOk [str "qubesctl", str "saltutil.sync_all"] = true)
    (he : ∀ s ∈ qubesStates cfg, env.cmdOk (enableCmd s) = true)
    (hh : env.cmdOk [str "qubesctl", str "--all", str "state.highstate"] = false) :
    (configure_qubes env ⟨cfg, []⟩).2 = some (PErr.configFailed saltGuidanceMsg) ∧
    str "/var/log/salt/minion" <:+: saltGuidanceMsg ∧
    str "sudo qubesctl --all state.highstate" <:+: saltGuidanceMsg ∧
    ∀ args, Event.cmd args ∈ (configure_qubes env ⟨cfg, []⟩).1.trace →
      str "top.disable" ∉ args := by
  have hrun : configure_qubes env ⟨cfg, []⟩ =
      (⟨cfg, Event.rename (str "/var/log/salt/minion") (str "/var/log/salt/minion.install")
          :: Event.cmd [str "qubesctl", str "saltutil.clear_cache"]
          :: Event.cmd [str "qubesctl", str "saltutil.sync_all"]
          :: ((qubesStates cfg).map (fun s => Event.cmd (enableCmd s))
            ++ [Event.cmd [str "qubesctl", str "--all", str "state.highstate"]])⟩,
       some (PErr.configFailed saltGuidanceMsg)) := by
    unfold configure_qubes
    dsimp only
    rw [run_command_ok env _ false _ (by simp [hc])]
    rw [pseq_ok _ _ rfl]
    rw [run_command_ok env _ false _ (by simp [hs])]
    rw [pseq_ok _ _ rfl]
    rw [enableGo_ok env (qubesStates cfg) he _]
    rw [pseq_ok _ _ rfl]
    rw [run_command_fail env _ _ hh]
    rw [pseq_err _ _ (PErr.cmdFailed [str "qubesctl", str "--all", str "state.highstate"]) rfl]
    rfl
  refine ⟨by rw [hrun], by decide, by decide, ?_⟩
  intro args hargs
  rw [hrun] at hargs
  simp only [List.mem_cons, List.mem_append, List.mem_map, List.mem_singleton,
    List.not_mem_nil, or_false] at hargs
  rcases hargs with h | h | h | ⟨s, hsmem, h⟩ | h
  · simp at h
  · injection h with h2; subst h2; decide
  · injection h with h2; subst h2; decide
  · injection h with h2
    subst h2
    exact no_disable_in_enableCmd s (qubesStates_sub cfg s hsmem)
  · injection h with h2; subst h2; decide

/-- An environment in which only the highstate command fails. -/
def envC6 : Env :=
  { qubes_gid := 989
    qubes_group_members := [str "user"]
    cmdOk := fun c =>
      if c = [str "qubesctl", str "--all", str "state.highstate"] then false else true
    vm_kernels := []
    template_rpm := fun _ => none }

set_option maxRecDepth 4000 in
/-- C6 witness: the convergence-failure scenario evaluated concretely. -/
theorem c6_convergence_failure_witness :
    (configure_qubes envC6 ⟨sampleQD, []⟩).2 = some (PErr.configFailed saltGuidanceMsg) ∧
    str "/var/log/salt/minion" <:+: saltGuidanceMsg ∧
    str "sudo qubesctl --all state.highstate" <:+: saltGuidanceMsg ∧
    ∀ args, Event.cmd args ∈ (configure_qubes envC6 ⟨sampleQD, []⟩).1.trace →
      str "top.disable" ∉ args :=
  c6_convergence_failure envC6 sampleQD (by decide) (by decide) (by decide) (by decide)

theorem installGo_first_missing (env : Env) (versions : List (Str × Str))
    (ts1 : List Str) :
    ∀ (t : Str) (ts2 : List Str) (st : PState),
    (∀ x ∈ ts1, dictGet versions (whonixKey x) ≠ none ∧
      env.template_rpm x ≠ none ∧
      env.cmdOk [str "/usr/bin/rpm", str "-i", (env.template_rpm x).getD []] = true) →
    dictGet versions (whonixKey t) = none →
    installGo env versions (ts1 ++ t :: ts2) st
      = ({ st with trace := st.trace ++ ts1.map (fun x =>
            Event.cmd [str "/usr/bin/rpm", str "-i", (env.template_rpm x).getD []]) },
         some (PErr.keyError (whonixKey t))) := by
  induction ts1 with
  | nil =>
    intro t ts2 st hok habs
    show installGo env versions (t :: ts2) st = _
    unfold installGo
    rw [habs]
    simp
  | cons x ts1 ih =>
    intro t ts2 st hok habs
    obtain ⟨hkx, hrx, hcx⟩ := hok x (by simp)
    obtain ⟨vx, hvx⟩ := Option.ne_none_iff_exists'.mp hkx
    obtain ⟨px, hpx⟩ := Option.ne_none_iff_exists'.mp hrx
    show installGo env versions (x :: (ts1 ++ t :: ts2)) st = _
    unfold installGo
    rw [hvx, hpx]
    dsimp only
    have hc : env.cmdOk [str "/usr/bin/rpm", str "-i", px] = true := by
      rw [hpx] at hcx
      simpa using hcx
    rw [run_command_ok env _ false st (by simp [hc])]
    rw [pseq_ok _ _ rfl]
    rw [ih t ts2 _ (fun y hy => hok y (by simp [hy])) habs]
    simp [hpx]

/-- A record whose install list holds `whonix-gw`, with only the shared
`whonix` key in the version lookup. -/
def cfgC5 : QubesData :=
  { sampleQD with
    templates_to_install := [str "whonix-gw"]
    templates_versions := [(str "whonix", str "16")] }

/-- C5 counterexample: the entry `whonix-gw` is absent from the version
lookup, yet the install step does not fail — `whonix`-prefixed entries
are looked up under the shared `whonix` key (lines 388-389), so absence
of the entry itself is not a failure. -/
theorem c5_counterexample :
    dictGet cfgC5.templates_versions (str "whonix-gw") = none ∧
    (install_templates envC2 ⟨cfgC5, []⟩).2 = none := by
  decide

/-- C5 (amended): `install_templates` resolves each entry's version
under the key `whonix` when the entry starts with `whonix`, and under
the entry itself otherwise; for the first entry whose key is absent
(all earlier entries resolving and installing successfully), the step
raises `KeyError` for that key at pipeline-execution time, with no
`rpm -i` invocation for that entry; and `parse_line` accepts a
`templates_to_install` line without any membership check. -/
theorem c5_version_lookup_amended (env : Env) (st : PState) (ts1 ts2 : List Str)
    (t : Str) (q : QubesData) (line value : Str)
    (hcfg : st.cfg.templates_to_install = ts1 ++ t :: ts2)
    (hok : ∀ x ∈ ts1, dictGet st.cfg.templates_versions (whonixKey x) ≠ none ∧
      env.template_rpm x ≠ none ∧
      env.cmdOk [str "/usr/bin/rpm", str "-i", (env.template_rpm x).getD []] = true)
    (habs : dictGet st.cfg.templates_versions (whonixKey t) = none) :
    install_templates env st
      = ({ st with trace := st.trace ++ ts1.map (fun x =>
            Event.cmd [str "/usr/bin/rpm", str "-i", (env.template_rpm x).getD []]) },
         some (PErr.keyError (whonixKey t))) ∧
    (pySplitWs1 (pyStrip line) = [str "templates_to_install", value] →
      handle_line q line
        = ({ q with templates_to_install := pySplitChar ' ' value, seen := true },
           none)) := by
  constructor
  · unfold install_templates
    rw [hcfg]
    exact installGo_first_missing env st.cfg.templates_versions ts1 t ts2 st hok habs
  · intro hsp
    unfold handle_line
    rw [hsp]
    have hnm : (str "templates_to_install") ∉ bool_options := by decide
    have hne : str "templates_to_install" ≠ str "default_template" := by decide
    simp [hnm, hne]

/-- C5 witness: first entry `fedora` with an empty version lookup. -/
theorem c5_version_lookup_amended_witness :
    install_templates envC2 ⟨{ sampleQD with
        templates_to_install := [str "fedora"], templates_versions := [] }, []⟩
      = ({ cfg := { sampleQD with
            templates_to_install := [str "fedora"], templates_versions := [] },
           trace := [] ++ ([] : List Str).map (fun x =>
             Event.cmd [str "/usr/bin/rpm", str "-i", (envC2.template_rpm x).getD []]) },
         some (PErr.keyError (whonixKey (str "fedora")))) ∧
    (pySplitWs1 (pyStrip (str "templates_to_install fedora debian"))
        = [str "templates_to_install", str "fedora debian"] →
      handle_line sampleQD (str "templates_to_install fedora debian")
        = ({ sampleQD with
             templates_to_install := pySplitChar ' ' (str "fedora debian"),
             seen := true }, none)) :=
  c5_version_lookup_amended envC2
    ⟨{ sampleQD with templates_to_install := [str "fedora"], templates_versions := [] }, []⟩
    [] [] (str "fedora") sampleQD (str "templates_to_install fedora debian")
    (str "fedora debian") rfl (by simp) (by decide)

theorem configure_default_kernel_ok (env : Env) (st : PState) (k : Str) (ks : List Str)
    (hall : ∀ c, env.cmdOk c = true)
    (hsort : lvSorted env.vm_kernels = Except.ok (k :: ks)) :
    (configure_default_kernel env st).2 = none := by
  unfold configure_default_kernel
  rw [hsort]
  dsimp only
  rw [run_command_ok env _ false st (by simp [hall _])]

theorem configure_default_pool_ok (env : Env) (st : PState)
    (hall : ∀ c, env.cmdOk c = true) :
    (configure_default_pool env st).2 = none := by
  unfold configure_default_pool
  split
  · rfl
  · rw [run_command_ok env _ false st (by simp [hall _])]
    rw [pseq_ok _ _ rfl]
    rw [run_command_ok env _ false _ (by simp [hall _])]

theorem installGo_ok (env : Env) (versions : List (Str × Str)) (ts : List Str)
    (hall : ∀ c, env.cmdOk c = true)
    (h : ∀ x ∈ ts, dictGet versions (whonixKey x) ≠ none ∧ env.template_rpm x ≠ none) :
    ∀ st, (installGo env versions ts st).2 = none := by
  induction ts with
  | nil => intro st; rfl
  | cons x ts ih =>
    intro st
    obtain ⟨hkx, hrx⟩ := h x (by simp)
    obtain ⟨vx, hvx⟩ := Option.ne_none_iff_exists'.mp hkx
    obtain ⟨px, hpx⟩ := Option.ne_none_iff_exists'.mp hrx
    show (installGo env versions (x :: ts) st).2 = none
    unfold installGo
    rw [hvx, hpx]
    dsimp only
    rw [run_command_ok env _ false st (by simp [hall _])]
    rw [pseq_ok _ _ rfl]
    exact ih (fun y hy => h y (by simp [hy])) _

theorem install_templates_ok (env : Env) (st : PState)
    (hall : ∀ c, env.cmdOk c = true)
    (h : ∀ x ∈ st.cfg.templates_to_install,
      dictGet st.cfg.templates_versions (whonixKey x) ≠ none ∧
      env.template_rpm x ≠ none) :
    (install_templates env st).2 = none :=
  installGo_ok env st.cfg.templates_versions st.cfg.templates_to_install hall h st

theorem dom0Go_ok (env : Env) (svcs : List Str) :
    ∀ st, (dom0Go env svcs st).2 = none := by
  induction svcs with
  | nil => intro st; rfl
  | cons s svcs ih =>
    intro st
    show (pseq (run_command env _ true st) _).2 = none
    rw [run_command_ok env _ true st (by simp)]
    rw [pseq_ok _ _ rfl]
    rw [run_command_ok env _ true _ (by simp)]
    rw [pseq_ok _ _ rfl]
    exact ih _

theorem configure_dom0_ok (env : Env) (st : PState) :
    (configure_dom0 env st).2 = none :=
  dom0Go_ok env dom0Services st

theorem configure_default_template_none (env : Env) (st : PState)
    (h : st.cfg.default_template = none) :
    configure_default_template env st = (st, none) := by
  unfold configure_default_template
  rw [h]

theorem disableGo_ok (env : Env) (states : List Str)
    (hall : ∀ c, env.cmdOk c = true) :
    ∀ st, (disableGo env states st).2 = none := by
  induction states with
  | nil => intro st; rfl
  | cons s states ih =>
    intro st
    unfold disableGo
    split
    · exact ih st
    · rw [run_command_ok env _ false st (by simp [hall _])]
      rw [pseq_ok _ _ rfl]
      exact ih _

theorem configure_qubes_ok (env : Env) (st : PState)
    (hall : ∀ c, env.cmdOk c = true) :
    (configure_qubes env st).2 = none := by
  unfold configure_qubes
  dsimp only
  rw [run_command_ok env _ false _ (by simp [hall _])]
  rw [pseq_ok _ _ rfl]
  rw [run_command_ok env _ false _ (by simp [hall _])]
  rw [pseq_ok _ _ rfl]
  rw [enableGo_ok env (qubesStates st.cfg) (fun s _ => hall _) _]
  rw [pseq_ok _ _ rfl]
  rw [run_command_ok env _ false _ (by simp [hall _])]
  rw [pseq_ok _ _ rfl]
  exact qubesTail_ok _ (disableGo_ok env (qubesStates st.cfg) hall _)

theorem configure_network_ok (env : Env) (st : PState)
    (hall : ∀ c, env.cmdOk c = true) :
    (configure_network env st).2 = none := by
  unfold configure_network
  dsimp only
  rw [run_command_ok env _ false _ (by simp [hall _])]
  rw [pseq_ok _ _ rfl]
  rw [run_command_ok env _ false _ (by simp [hall _])]
  rw [pseq_ok _ _ rfl]
  rw [run_command_ok env _ false _ (by simp [hall _])]
  rw [pseq_ok _ _ rfl]
  rw [run_command_ok env _ false _ (by simp [hall _])]
  rw [pseq_ok _ _ rfl]
  rw [run_command_ok env _ false _ (by simp [hall _])]

theorem configure_default_dvm_none (env : Env) (st : PState)
    (h : st.cfg.default_template = none) :
    configure_default_dvm env st = (st, some (PErr.typeError typeErrNoneStr)) := by
  unfold configure_default_dvm
  rw [h]

theorem dvmTail_none (env : Env) (st : PState)
    (h : st.cfg.default_template = none) :
    dvmTail env st = (st, some (PErr.aggregated
      (str "Default DVM failed:\n" ++ typeErrNoneStr ++ str "\n\n"))) := by
  unfold dvmTail
  rw [configure_default_dvm_none env st h]
  rfl

/-- The configuration facts needed for every step before the DVM step
to succeed: no default template selected, and every install entry
resolvable. -/
def GoodCfg (env : Env) (c : QubesData) : Prop :=
  c.default_template = none ∧
  ∀ x ∈ c.templates_to_install,
    dictGet c.templates_versions (whonixKey x) ≠ none ∧ env.template_rpm x ≠ none

theorem pseq_good (env : Env) (f k : PState → PState × Option PErr) (E : PErr)
    (hf2 : ∀ s, GoodCfg env s.cfg → ((f s)).2 = none)
    (hf1 : ∀ s, GoodCfg env s.cfg → ((f s).1).cfg = s.cfg)
    (hk : ∀ s, GoodCfg env s.cfg → ((k s)).2 = some E) :
    ∀ s, GoodCfg env s.cfg → (pseq (f s) k).2 = some E := by
  intro s hs
  have h2 := hf2 s hs
  have h1 := hf1 s hs
  rcases hr : f s with ⟨s', e⟩
  rw [hr] at h2 h1
  cases e with
  | none =>
    rw [pseq_ok _ _ rfl]
    refine hk s' ?_
    rw [show s'.cfg = s.cfg from h1]
    exact hs
  | some e => exact absurd h2 (by simp)

/-- C10: with `skip` false and `default_template` unset (its
constructor default), and every other step completing, `do_setup` ends
by raising the aggregated failure: `configure_default_dvm` computes
`None + "-dvm"`, which raises `TypeError` before its command is built
(second conjunct: the state is returned untouched, so no command ran);
the failure is recorded under the "Default DVM" stage and re-raised in
the combined message after the other steps complete. -/
theorem c10_dvm_aggregated_failure (env : Env) (st : PState) (u : Str)
    (us : List Str) (k : Str) (ks : List Str)
    (hmem : env.qubes_group_members = u :: us)
    (hskip : st.cfg.skip = false)
    (hdt : st.cfg.default_template = none)
    (hall : ∀ c, env.cmdOk c = true)
    (hsort : lvSorted env.vm_kernels = Except.ok (k :: ks))
    (htpl : ∀ x ∈ st.cfg.templates_to_install,
      dictGet st.cfg.templates_versions (whonixKey x) ≠ none ∧
      env.template_rpm x ≠ none) :
    (do_setup env st).2 = some (PErr.aggregated
      (str "Default DVM failed:\n" ++ typeErrNoneStr ++ str "\n\n")) ∧
    (∀ s : PState, s.cfg.default_template = none →
      configure_default_dvm env s = (s, some (PErr.typeError typeErrNoneStr))) := by
  refine ⟨?_, fun s hs => configure_default_dvm_none env s hs⟩
  unfold do_setup
  rw [hmem]
  dsimp only
  rw [if_neg (show ¬ (st.cfg.skip = true) by simp [hskip])]
  refine pseq_good env (configure_default_kernel env) _ _
    (fun s _ => configure_default_kernel_ok env s k ks hall hsort)
    (fun s _ => configure_default_kernel_cfg env s) ?_ _ ⟨hdt, htpl⟩
  intro s1 hs1
  dsimp only
  refine pseq_good env (configure_default_pool env) _ _
    (fun s _ => configure_default_pool_ok env s hall)
    (fun s _ => configure_default_pool_cfg env s) ?_ s1 hs1
  intro s2 hs2
  dsimp only
  refine pseq_good env (install_templates env) _ _
    (fun s hg => install_templates_ok env s hall hg.2)
    (fun s _ => install_templates_cfg env s) ?_ s2 hs2
  intro s3 hs3
  dsimp only
  refine pseq_good env (configure_dom0 env) _ _
    (fun s _ => configure_dom0_ok env s)
    (fun s _ => configure_dom0_cfg env s) ?_ s3 hs3
  intro s4 hs4
  dsimp only
  refine pseq_good env (configure_default_template env) _ _
    (fun s hg => by rw [configure_default_template_none env s hg.1])
    (fun s hg => by rw [configure_default_template_none env s hg.1]) ?_ s4 hs4
  intro s5 hs5
  dsimp only
  refine pseq_good env (configure_qubes env) _ _
    (fun s _ => configure_qubes_ok env s hall)
    (fun s _ => configure_qubes_cfg env s) ?_ s5 hs5
  intro s6 hs6
  dsimp only
  refine pseq_good env
    (fun s => if s.cfg.system_vms then configure_network env s else (s, none)) _ _
    (fun s _ => by dsimp only; split; exacts [configure_network_ok env s hall, rfl])
    (fun s _ => by dsimp only; split; exacts [configure_network_cfg env s, rfl]) ?_ s6 hs6
  intro s7 hs7
  dsimp only
  refine pseq_good env
    (fun s => if s.cfg.usbvm && !s.cfg.usbvm_with_netvm then
        run_command env
          [str "systemctl", str "start", str "qubes-vm@sys-usb.service"] false s
      else (s, none)) _ _
    (fun s _ => by dsimp only
                   split
                   · rw [run_command_ok env _ false s (by simp [hall _])]
                   · rfl)
    (fun s _ => by dsimp only; split; exacts [run_command_cfg env _ false s, rfl]) ?_ s7 hs7
  intro s8 hs8
  rw [dvmTail_none env s8 hs8.1]

/-- C10 witness: the default record under an all-success environment. -/
theorem c10_dvm_aggregated_failure_witness :
    (do_setup envC2 ⟨sampleQD, []⟩).2 = some (PErr.aggregated
      (str "Default DVM failed:\n" ++ typeErrNoneStr ++ str "\n\n")) ∧
    (∀ s : PState, s.cfg.default_template = none →
      configure_default_dvm envC2 s = (s, some (PErr.typeError typeErrNoneStr))) :=
  c10_dvm_aggregated_failure envC2 ⟨sampleQD, []⟩ (str "user") [] (str "5.10.0-1") []
    rfl rfl rfl (fun _ => rfl) (by decide) (by decide)
